import Mathlib

/-!
Verification of the mytoml TOML parser (src/tomlfy.h, src/mytoml.h).

This file is a shallow embedding of the C parser into Lean 4.  C `char`
values are modelled as `Int` in the signed-char range `[-128, 127]` (the
`EOF` sentinel byte written by `_Mytoml_TokenizerLoadInput` is `-1`);
byte buffers and the input stream are `List Int`; the mutable `Tokenizer`
struct becomes a record threaded through every parsing function; C
functions that log an error and return `NULL` become `Option`-valued
functions; unbounded C `while` loops take an explicit fuel argument
(fuel exhaustion yields the failure value, and all theorems either
quantify over fuel or use a concrete fuel large enough for the input).
Doubles are modelled by `MDouble`: an exact rational together with the
non-finite IEEE values `inf`, `-inf`, `nan`; the only double operations
the parser performs are `strtod`, comparisons with `0.0`/infinities and
`printf` formatting, all of which are modelled on the rational value.
-/

namespace Mytoml2Proof

/-- Truncation of an unsigned 64-bit quantity to a C `int`
(two's complement, as on the target platform). -/
def toInt32 (n : Nat) : Int :=
  let r := n % 4294967296
  if r < 2147483648 then (r : Int) else (r : Int) - 4294967296

/-- `a - b` in C `unsigned long` (64-bit wrap-around) arithmetic. -/
def usub64 (a b : Nat) : Nat :=
  (a + 18446744073709551616 - b % 18446744073709551616) % 18446744073709551616

/-- A byte value stored into a C `char` (signed char on the target):
values `>= 128` wrap to negatives. -/
def toSChar (n : Nat) : Int :=
  let r := n % 256
  if r < 128 then (r : Int) else (r : Int) - 256

/-- The character for decimal digit `d`. -/
def digCh (d : Nat) : Char := Char.ofNat (48 + d % 10)

/-- Decimal digit characters of `n`, most significant first (fuelled). -/
def natDigitsAux : Nat → Nat → List Char
  | 0, _ => []
  | f + 1, n => if n < 10 then [digCh n] else natDigitsAux f (n / 10) ++ [digCh (n % 10)]
termination_by structural f => f

/-- Decimal digit characters of `n` (the rendering of `printf` for an
unsigned value). -/
def natDigits (n : Nat) : List Char := natDigitsAux (n + 1) n

/-- Number of decimal digits of `n` (1 for 0); used to model
`floor(log10(abs(m))) + 1` on nonzero arguments. -/
def decDigits (n : Nat) : Nat :=
  (natDigits n).length

/-- C `strlen` semantics on a byte list: the bytes before the first NUL. -/
def cstr (l : List Int) : List Int :=
  l.takeWhile (fun c => c ≠ 0)

/-- The bytes of an ASCII Lean string, as C chars. -/
def strBytes (s : String) : List Int :=
  s.data.map (fun c => (c.toNat : Int))

/-- A C char (byte < 128 assumed for outputs we print) back to a `Char`. -/
def schrToChar (i : Int) : Char :=
  Char.ofNat ((i % 256).toNat)

/-- Render a byte list as a Lean string (serializer output, ids). -/
def bytesStr (l : List Int) : String :=
  String.mk (l.map schrToChar)

/-- Model of a C `double` as stored by the parser: an exact rational
for finite values plus the IEEE non-finite values. -/
inductive MDouble : Type where
  | fin (q : Rat)
  | inf
  | ninf
  | nan
  deriving DecidableEq

/-- A C `double` used as a truth value (`!= 0`; NaN is truthy). -/
def MDouble.truthy : MDouble → Bool
  | .fin q => q ≠ 0
  | _ => true

/-- `TomlValueType` from src/mytoml.h. -/
inductive TomlValueType : Type where
  | INT
  | BOOL
  | FLOAT
  | ARRAY
  | STRING
  | DATETIME
  | DATELOCAL
  | TIMELOCAL
  | INLINETABLE
  | DATETIMELOCAL
  deriving DecidableEq

/-- `TomlKeyType` from src/mytoml.h. -/
inductive TomlKeyType : Type where
  | KEY
  | TABLE
  | KEYLEAF
  | TABLELEAF
  | ARRAYTABLE
  deriving DecidableEq

/-- The fields of C `struct tm` that the parser reads or writes
(`calloc` zero-initializes the rest, which the parser never touches). -/
structure Tm where
  tm_sec : Int := 0
  tm_min : Int := 0
  tm_hour : Int := 0
  tm_mday : Int := 0
  tm_mon : Int := 0
  tm_year : Int := 0
  deriving DecidableEq

mutual
/-- `TomlValue` from src/mytoml.h: value type tag, the `arr` buffer
(as the list of array elements written so far), `len`, the `data`
payload, `precision`, `scientific` and the datetime `format` string. -/
inductive TomlValue : Type where
  | mk : TomlValueType → List TomlValue → Nat → TomlData → Nat → Bool → String → TomlValue

/-- The `void *data` payload of a `TomlValue`. -/
inductive TomlData : Type where
  | nullp : TomlData
  | str : List Int → TomlData
  | num : MDouble → TomlData
  | tmv : Tm → TomlData
  | key : TomlKey → TomlData

/-- `TomlKey` from src/mytoml.h: key type, `id` buffer, `subkeys`
(khash map modelled as an id-keyed association list in insertion
order), optional `value` and the `size_t idx` arraytable cursor. -/
inductive TomlKey : Type where
  | mk : TomlKeyType → List Int → List TomlKey → Option TomlValue → Nat → TomlKey
end

def TomlValue.vtype : TomlValue → TomlValueType
  | .mk t _ _ _ _ _ _ => t

def TomlValue.arr : TomlValue → List TomlValue
  | .mk _ a _ _ _ _ _ => a

def TomlValue.len : TomlValue → Nat
  | .mk _ _ l _ _ _ _ => l

def TomlValue.vdata : TomlValue → TomlData
  | .mk _ _ _ d _ _ _ => d

def TomlValue.precision : TomlValue → Nat
  | .mk _ _ _ _ p _ _ => p

def TomlValue.scientific : TomlValue → Bool
  | .mk _ _ _ _ _ s _ => s

def TomlValue.format : TomlValue → String
  | .mk _ _ _ _ _ _ f => f

def TomlKey.ktype : TomlKey → TomlKeyType
  | .mk t _ _ _ _ => t

def TomlKey.kid : TomlKey → List Int
  | .mk _ i _ _ _ => i

def TomlKey.subkeys : TomlKey → List TomlKey
  | .mk _ _ s _ _ => s

def TomlKey.value : TomlKey → Option TomlValue
  | .mk _ _ _ v _ => v

def TomlKey.idx : TomlKey → Nat
  | .mk _ _ _ _ i => i

def TomlKey.withType (k : TomlKey) (t : TomlKeyType) : TomlKey :=
  .mk t k.kid k.subkeys k.value k.idx

def TomlKey.withSubkeys (k : TomlKey) (s : List TomlKey) : TomlKey :=
  .mk k.ktype k.kid s k.value k.idx

def TomlKey.withValue (k : TomlKey) (v : Option TomlValue) : TomlKey :=
  .mk k.ktype k.kid k.subkeys v k.idx

def TomlKey.withIdx (k : TomlKey) (i : Nat) : TomlKey :=
  .mk k.ktype k.kid k.subkeys k.value i

/-! ## Character predicates (src/tomlfy.h, `_Mytoml_Is...`)

All operate on C chars as `Int`; the comparisons are those of the C
source under signed-char semantics. -/

def isWhitespace (c : Int) : Bool := c = 32 || c = 9

def isNewline (c : Int) : Bool := c = 10

def isReturn (c : Int) : Bool := c = 13

def isCommentStart (c : Int) : Bool := c = 35

def isEqual (c : Int) : Bool := c = 61

def isEscape (c : Int) : Bool := c = 92

def isBasicStringStart (c : Int) : Bool := c = 34

def isLiteralStringStart (c : Int) : Bool := c = 39

def isTableStart (c : Int) : Bool := c = 91

def isTableEnd (c : Int) : Bool := c = 93

def isInlineTableStart (c : Int) : Bool := c = 123

def isInlineTableEnd (c : Int) : Bool := c = 125

def isInlineTableSep (c : Int) : Bool := c = 44

def isDot (c : Int) : Bool := c = 46

def isDigit (c : Int) : Bool := 48 ≤ c && c ≤ 57

/-- `_Mytoml_IsHexDigit`: the letter hex digits only (the C source
checks `A`-`F` and `a`-`f`; decimal digits are checked separately). -/
def isHexDigit (c : Int) : Bool :=
  (65 ≤ c && c ≤ 70) || (97 ≤ c && c ≤ 102)

def isNumberStart (c : Int) : Bool :=
  c = 43 || c = 45 || isDigit c

def isBareAscii (c : Int) : Bool :=
  (65 ≤ c && c ≤ 90) || (97 ≤ c && c ≤ 122) || c = 95 || c = 45 || isDigit c

/-- `_Mytoml_Iscontrol`. -/
def iscontrol (c : Int) : Bool :=
  (0 ≤ c && c ≤ 8) || (10 ≤ c && c ≤ 31) || c = 127

/-- `_Mytoml_IsControlMulti`. -/
def isControlMulti (c : Int) : Bool :=
  (0 ≤ c && c ≤ 8) || c = 11 || c = 12 || (14 ≤ c && c ≤ 31) || c = 127

/-- `_Mytoml_IsControlLiteral`. -/
def isControlLiteral (c : Int) : Bool :=
  (c ≠ 9 && c ≠ 10 && 0 ≤ c && c ≤ 31) || c = 127

def isNumberEnd (c : Int) (numEnd : List Int) : Bool :=
  numEnd.any (fun e => c = e)

def isDecimalPoint (c : Int) : Bool := c = 46

def isUnderscore (c : Int) : Bool := c = 95

def isArrayStart (c : Int) : Bool := c = 91

def isArrayEnd (c : Int) : Bool := c = 93

def isArraySep (c : Int) : Bool := c = 44

/-- `_Mytoml_IsDate` (src/tomlfy.h:1388): month is the 0-based
`tm_mon` value; C `%` on `int` is truncated division, i.e. `Int.tmod`. -/
def isDate (year month day : Int) : Bool :=
  if month = 0 then 1 ≤ day && day ≤ 31
  else if month = 1 then
    (1 ≤ day && day ≤ 28) ||
    (day = 29 && year.tmod 4 = 0 && year.tmod 100 ≠ 0) ||
    (day = 29 && year.tmod 4 = 0 && year.tmod 100 = 0 && year.tmod 400 = 0)
  else if month = 2 then 1 ≤ day && day ≤ 31
  else if month = 3 then 1 ≤ day && day ≤ 30
  else if month = 4 then 1 ≤ day && day ≤ 31
  else if month = 5 then 1 ≤ day && day ≤ 30
  else if month = 6 then 1 ≤ day && day ≤ 31
  else if month = 7 then 1 ≤ day && day ≤ 31
  else if month = 8 then 1 ≤ day && day ≤ 30
  else if month = 9 then 1 ≤ day && day ≤ 31
  else if month = 10 then 1 ≤ day && day ≤ 30
  else if month = 11 then 1 ≤ day && day ≤ 31
  else false

/-- `_Mytoml_IsValidDatetime` (src/tomlfy.h:1424). -/
def isValidDatetime (t : Tm) : Bool :=
  (0 ≤ t.tm_hour && t.tm_hour ≤ 23) &&
  (0 ≤ t.tm_min && t.tm_min ≤ 59) &&
  (0 ≤ t.tm_sec && t.tm_sec ≤ 59) &&
  isDate (t.tm_year + 1900) t.tm_mon t.tm_mday

/-! ## Tokenizer (src/tomlfy.h, `_Mytoml_NewTokenizer` etc.)

The `lines` per-line column table (a C `int` array of size
`MYTOML_MAX_NUM_LINES`) is modelled as a total function. -/

structure Tokenizer where
  stream : List Int
  cursor : Nat
  token : Int
  prev : Int
  prevPrev : Int
  isNull : Bool
  nlFlag : Bool
  line : Int
  col : Int
  lines : Int → Int

/-- `_Mytoml_NewTokenizer` (the struct is `calloc`ed, so `newline`
starts false; the other fields are then assigned explicitly). -/
def newTokenizer (stream : List Int) : Tokenizer :=
  { stream := stream, cursor := 0, token := 0, prev := 0, prevPrev := 0,
    isNull := true, nlFlag := false, line := 0, col := 0, lines := fun _ => 0 }

/-- `_Mytoml_NextTokenizerToken` (src/tomlfy.h:873): shifts the
look-back window, reads the byte at the cursor, maintains the
newline flag, line/column and the per-line length table, and converts
the `EOF` sentinel byte into `'\0'` with `is_null = false`.
Returns the C `int` result together with the new state. -/
def Tokenizer.next (t : Tokenizer) : Nat × Tokenizer :=
  let pp := t.prev
  let p := t.token
  if t.isNull || t.cursor == 0 then
    let c := t.stream.getD t.cursor 0
    let cursor := t.cursor + 1
    let nl1 := if t.nlFlag && p ≠ 0 && p ≠ 32 && p ≠ 9 && p ≠ 10 then false else t.nlFlag
    let nl2 := if c = 10 then true else nl1
    let lc : Int × Int × (Int → Int) :=
      if p = 10 then
        (t.line + 1, (0 : Int),
          if t.line < 16777216 then (fun l => if l = t.line then t.col else t.lines l)
          else t.lines)
      else (t.line, t.col + 1, t.lines)
    let ti : Int × Bool := if c = -1 then ((0 : Int), false) else (c, t.isNull)
    (1, { stream := t.stream, cursor := cursor, token := ti.1, prev := p, prevPrev := pp,
          isNull := ti.2, nlFlag := nl2, line := lc.1, col := lc.2.1, lines := lc.2.2 })
  else
    (0, { t with prev := p, prevPrev := pp })

/-- The rewind loop inside `_Mytoml_TokenizerBacktrace`: while
`line >= 0 && pre_count > col`, do `pre_count -= col;
col = lines[--line]`.  The loop decrements `line` each iteration, so
fuel `line.toNat + 2` is exact. -/
def btLoop : Nat → Int → Int → Int → (Int → Int) → Int × Int × Int
  | 0, line, pc, col, _ => (line, pc, col)
  | f + 1, line, pc, col, lines =>
    if line ≥ 0 && pc > col then
      btLoop f (line - 1) (pc - col) (lines (line - 1)) lines
    else (line, pc, col)
termination_by structural f => f

/-- `_Mytoml_TokenizerBacktrace` (src/tomlfy.h:914).  When the guard
`count > 0 && cursor > count + 2` fails the C code only logs an error
and moves nothing. -/
def Tokenizer.backtrace (t : Tokenizer) (count : Int) : Tokenizer :=
  let pc : Int := count + 2
  if count > 0 && (t.cursor : Int) > pc then
    let cursor := t.cursor - pc.toNat
    let r := btLoop (t.line.toNat + 2) t.line pc t.col t.lines
    let col0 := r.2.2 - r.2.1
    let line := if r.1 < 0 then 0 else r.1
    let col := if col0 < 0 then 0 else col0
    let t1 := { t with cursor := cursor, isNull := true, line := line, col := col }
    let t2 := (t1.next).2
    (t2.next).2
  else t

/-- `_Mytoml_TokenizerHasToken`. -/
def Tokenizer.hasToken (t : Tokenizer) : Bool := t.isNull

/-! ## Tree model and `_Mytoml_AddSubKey`

The C tree is built through pointers: `_Mytoml_AddSubKey` returns a
pointer to the inserted or existing node, which callers then mutate
(`subkey->value = v`, kind updates).  In the pure embedding a node is
identified by its access path from a local root, and the pointer-
returning functions return the updated root together with that path. -/

inductive PathStep : Type where
  | child (id : List Int)
  | arrEntry (i : Nat)

def Path : Type := List PathStep

/-- `_Mytoml_NewKey` (src/tomlfy.h:1099): note `k->idx = -1` stores
`SIZE_MAX` into the `size_t idx` field. -/
def newKey (t : TomlKeyType) : TomlKey :=
  .mk t [] [] none 18446744073709551615

/-- Dereference a path (C pointer) in a tree.  A dangling path models a
C invalid dereference and yields `none`. -/
def TomlKey.getAt : TomlKey → List PathStep → Option TomlKey
  | k, [] => some k
  | k, .child id :: rest =>
    match k.subkeys.find? (fun s => s.kid == id) with
    | some s => s.getAt rest
    | none => none
  | k, .arrEntry i :: rest =>
    match k.value with
    | some v =>
      match v.arr.get? i with
      | some e =>
        match e.vdata with
        | .key h => h.getAt rest
        | _ => none
      | _ => none
    | none => none
termination_by structural k p => p

/-- Rewrite the node at a path with `f` (models mutation through a C
pointer; a dangling path leaves the tree unchanged). -/
def TomlKey.modifyAt : TomlKey → List PathStep → (TomlKey → TomlKey) → TomlKey
  | k, [], f => f k
  | k, .child id :: rest, f =>
    k.withSubkeys (k.subkeys.map (fun s => if s.kid == id then s.modifyAt rest f else s))
  | k, .arrEntry i :: rest, f =>
    match k.value with
    | some v =>
      let arr := v.arr.enum.map (fun p =>
        if p.1 == i then
          match p.2.vdata with
          | .key h =>
            TomlValue.mk p.2.vtype p.2.arr p.2.len (.key (h.modifyAt rest f))
              p.2.precision p.2.scientific p.2.format
          | _ => p.2
        else p.2)
      k.withValue (some (TomlValue.mk v.vtype arr v.len v.vdata v.precision v.scientific v.format))
    | none => k
termination_by structural k p f => p

/-- `_Mytoml_CompatibleKeys` (src/tomlfy.h:1169), clause for clause. -/
def compatibleKeys (existing current : TomlKeyType) : Bool :=
  if existing = .KEYLEAF then false
  else if existing = .TABLELEAF && current = .TABLELEAF then false
  else if (existing = .TABLELEAF || existing = .KEY) && current = .TABLE then true
  else if existing = .TABLE && current = .TABLELEAF then true
  else if existing = .ARRAYTABLE && current = .TABLE then true
  else if current = existing then true
  else false

/-- `_Mytoml_AddSubKey` (src/tomlfy.h:1118) on the node of `root` at
`parent`.  Returns the updated root and the path of the returned
pointer.  The fuel bounds the `ARRAYTABLE` recursion depth. -/
def addSubKeyAt (fuel : Nat) (root : TomlKey) (parent : List PathStep) (subkey : TomlKey) :
    Option (TomlKey × List PathStep) :=
  match fuel with
  | 0 => none
  | f + 1 =>
    match root.getAt parent with
    | none => none
    | some pk =>
      match pk.subkeys.find? (fun s => s.kid == subkey.kid) with
      | some s =>
        if compatibleKeys s.ktype subkey.ktype then
          -- re-defining a TABLE as a TABLELEAF is allowed only once
          let root1 :=
            if subkey.ktype = .TABLELEAF then
              root.modifyAt (parent ++ [.child subkey.kid]) (fun n => n.withType .TABLELEAF)
            else root
          some (root1, parent ++ [.child subkey.kid])
        else none
      | none =>
        if pk.subkeys.length < 131072 then
          if pk.ktype = .ARRAYTABLE then
            addSubKeyAt f root (parent ++ [.arrEntry pk.idx]) subkey
          else
            some (root.modifyAt parent (fun n => n.withSubkeys (n.subkeys ++ [subkey])),
              parent ++ [.child subkey.kid])
        else none

/-- `_Mytoml_NewStringValue` (src/tomlfy.h:1013): `data` holds the
bytes of `s` up to its first NUL. -/
def newStringValue (s : List Int) : TomlValue :=
  .mk .STRING [] 0 (.str (cstr s)) 0 false ""

/-- `_Mytoml_NewNumberValue` (src/tomlfy.h:1022). -/
def newNumberValue (d : MDouble) (t : TomlValueType) (precision : Nat) (scientific : Bool) :
    TomlValue :=
  .mk t [] 0 (.num d) precision scientific ""

/-- `_Mytoml_NewDatetimeValue` (src/tomlfy.h:1034): `v->precision`
receives `millis`; the format is copied only when shorter than
`MYTOML_MAX_DATE_FORMAT`. -/
def newDatetimeValue (dt : Tm) (t : TomlValueType) (format : String) (millis : Nat) :
    TomlValue :=
  .mk t [] 0 (.tmv dt) millis false (if format.length < 64 then format else "")

/-- `_Mytoml_NewArrayValue` (src/tomlfy.h:1049). -/
def newArrayValue : TomlValue :=
  .mk .ARRAY [] 0 .nullp 0 false ""

/-- `_Mytoml_NewTableValue` (src/tomlfy.h:1058): a fresh `KEY` node
receives all subkeys of `k` through `_Mytoml_AddSubKey` (whose result
the C code does not check). -/
def newTableValue (k : TomlKey) : TomlValue :=
  let h := k.subkeys.foldl (fun h c =>
    match addSubKeyAt 64 h [] c with
    | some r => r.1
    | none => h) (newKey .KEY)
  .mk .INLINETABLE [] 0 (.key h) 0 false ""

/-! ## Models of the libc functions used by the parser

Only the behaviour exercised through the parser's call sites is
modelled: `strtoul` in bases 2/8/10/16 on the accumulated byte
buffers, `strtod` on decimal numeric buffers (sign, digits, optional
decimal point and exponent; the hexadecimal and `inf`/`nan` forms of
`strtod` are unreachable from the call sites because those inputs are
diverted earlier), and the `printf` formatting directives appearing in
the serializer. -/

/-- C `isspace`. -/
def isCSpace (c : Int) : Bool :=
  c = 32 || c = 9 || c = 10 || c = 11 || c = 12 || c = 13

def digitVal (c : Int) : Nat :=
  if 48 ≤ c && c ≤ 57 then (c - 48).toNat
  else if 65 ≤ c && c ≤ 90 then (c - 55).toNat
  else if 97 ≤ c && c ≤ 122 then (c - 87).toNat
  else 99

/-- Accumulate leading digits valid in `base`: value and count. -/
def digitsLoop (base : Nat) : List Int → Nat → Nat → Nat × Nat
  | [], acc, n => (acc, n)
  | c :: rest, acc, n =>
    if digitVal c < base then digitsLoop base rest (acc * base + digitVal c) (n + 1)
    else (acc, n)
termination_by structural l => l

/-- `strtoul(l, &end, base)`: returns the converted `unsigned long`
value (negated modulo 2^64 under a minus sign, clamped to `ULONG_MAX`
on overflow) and `end - l`; no conversion yields `(0, 0)`. -/
def strtoulM (l : List Int) (base : Nat) : Nat × Nat :=
  let wsn := (l.takeWhile isCSpace).length
  let l1 := l.drop wsn
  let sp : Bool × Nat × List Int :=
    match l1 with
    | 43 :: r => (false, 1, r)
    | 45 :: r => (true, 1, r)
    | r => (false, 0, r)
  let px : Nat × List Int :=
    if base = 16 then
      match sp.2.2 with
      | 48 :: x :: r =>
        if (x = 120 || x = 88) &&
            (match r with | c :: _ => digitVal c < 16 | [] => false) then (2, r)
        else (0, sp.2.2)
      | _ => (0, sp.2.2)
    else (0, sp.2.2)
  let dg := digitsLoop base px.2 0 0
  if dg.2 = 0 then (0, 0)
  else
    let v :=
      if dg.1 ≥ 18446744073709551616 then 18446744073709551615
      else if sp.1 then (18446744073709551616 - dg.1) % 18446744073709551616
      else dg.1
    (v, wsn + sp.2.1 + px.1 + dg.2)

/-- `strtod(l, &end)` on the decimal forms reaching the call sites:
exact rational result and `end - l`; `(0, 0)` when no conversion.
(Values beyond double range, which C turns into `HUGE_VAL`, do not
occur in the verified executions and are kept exact here.) -/
def strtodM (l : List Int) : Rat × Nat :=
  let wsn := (l.takeWhile isCSpace).length
  let l1 := l.drop wsn
  let sp : Bool × Nat × List Int :=
    match l1 with
    | 43 :: r => (true, 1, r)
    | 45 :: r => (false, 1, r)
    | r => (true, 0, r)
  let ig := digitsLoop 10 sp.2.2 0 0
  let l2 := sp.2.2.drop ig.2
  let fr : Nat × Nat × List Int :=
    match l2 with
    | 46 :: r =>
      let fg := digitsLoop 10 r 0 0
      if ig.2 = 0 && fg.2 = 0 then (0, 0, l2)
      else (fg.1, fg.2, r.drop fg.2)
    | r => (0, 0, r)
  let dotLen : Nat := if (match l2 with | 46 :: _ => true | _ => false) &&
      !(ig.2 = 0 && fr.2.1 = 0) then 1 else 0
  if ig.2 = 0 && fr.2.1 = 0 then (0, 0)
  else
    let ex : Int × Nat :=
      match fr.2.2 with
      | e :: r =>
        if e = 101 || e = 69 then
          let sg : Bool × Nat × List Int :=
            match r with
            | 43 :: rr => (false, 1, rr)
            | 45 :: rr => (true, 1, rr)
            | rr => (false, 0, rr)
          let eg := digitsLoop 10 sg.2.2 0 0
          if eg.2 = 0 then (0, 0)
          else ((if sg.1 then -(eg.1 : Int) else (eg.1 : Int)), 1 + sg.2.1 + eg.2)
        else (0, 0)
      | [] => (0, 0)
    let sgn : Int := if sp.1 then 1 else -1
    let mag : Rat :=
      if 0 ≤ ex.1 then
        mkRat (sgn * ((ig.1 * 10 ^ fr.2.1 + fr.1) * 10 ^ ex.1.toNat : Nat)) (10 ^ fr.2.1)
      else
        mkRat (sgn * (ig.1 * 10 ^ fr.2.1 + fr.1 : Nat)) (10 ^ fr.2.1 * 10 ^ (-ex.1).toNat)
    (mag, wsn + sp.2.1 + ig.2 + dotLen + fr.2.1 + ex.2)

/-- Round to nearest, ties to even (the rounding of `printf`),
computed on the reduced numerator and denominator. -/
def rhe (q : Rat) : Int :=
  let d : Int := (q.den : Int)
  let fl : Int := Int.fdiv q.num d
  let r2 : Int := 2 * (q.num - fl * d)
  if d < r2 then fl + 1
  else if r2 < d then fl
  else if fl % 2 = 0 then fl else fl + 1

/-- The last `p` characters of `p` zeros prepended to the decimal
digits of `n`: a zero-padded digit field of width exactly `p`. -/
def natPadDigits (p : Nat) (n : Nat) : List Char :=
  ((List.replicate p '0' ++ natDigits n).reverse.take p).reverse

/-- `printf("%.*lf", p, q)` on a finite value. -/
def fmtFixed (q : Rat) (p : Nat) : String :=
  let neg := q.num < 0
  let m := (rhe (mkRat ((q.num.natAbs * 10 ^ p : Nat) : Int) q.den)).toNat
  let s := (if neg then "-" else "") ++ String.mk (natDigits (m / 10 ^ p))
  if p = 0 then s
  else s ++ "." ++ String.mk (natPadDigits p (m % 10 ^ p))

def ratPow10 (e : Int) : Rat :=
  if 0 ≤ e then mkRat ((10 ^ e.toNat : Nat) : Int) 1 else mkRat 1 (10 ^ (-e).toNat)

/-- Multiply a rational by `10 ^ k` (exact). -/
def ratScale10 (a : Rat) (k : Int) : Rat :=
  if 0 ≤ k then mkRat (a.num * ((10 ^ k.toNat : Nat) : Int)) a.den
  else mkRat a.num (a.den * 10 ^ (-k).toNat)

/-- For `a > 0`: the `e` with `10^e ≤ a < 10^(e+1)`. -/
def ilog10 (a : Rat) : Int :=
  let e0 : Int := (decDigits a.num.natAbs : Int) - (decDigits a.den : Int)
  if ratPow10 (e0 + 1) ≤ a then e0 + 1
  else if ratPow10 e0 ≤ a then e0
  else e0 - 1

def stripZeros (s : List Char) : List Char :=
  (s.reverse.dropWhile (fun c => c = '0')).reverse

/-- `printf("%g", q)` (default precision 6) on a finite value. -/
def fmtG (q : Rat) : String :=
  if q = 0 then "0"
  else
    let sgn := if q.num < 0 then "-" else ""
    let a := |q|
    let x0 := ilog10 a
    let m0 := (rhe (ratScale10 a (5 - x0))).toNat
    let mx : Nat × Int := if m0 ≥ 1000000 then (m0 / 10, x0 + 1) else (m0, x0)
    let ds := natPadDigits 6 mx.1
    let x := mx.2
    if x < 6 && -4 ≤ x then
      if 0 ≤ x then
        let ip := ds.take (x + 1).toNat
        let fp := stripZeros (ds.drop (x + 1).toNat)
        if fp.isEmpty then sgn ++ String.mk ip
        else sgn ++ String.mk ip ++ "." ++ String.mk fp
      else
        let fp := stripZeros (List.replicate (-(x + 1)).toNat '0' ++ ds)
        sgn ++ "0." ++ String.mk fp
    else
      let fp := stripZeros (ds.drop 1)
      let mant := if fp.isEmpty then String.mk (ds.take 1)
                  else String.mk (ds.take 1) ++ "." ++ String.mk fp
      let esgn := if x < 0 then "-" else "+"
      let eds := natPadDigits (max 2 (decDigits x.natAbs)) x.natAbs
      sgn ++ mant ++ "e" ++ esgn ++ String.mk eds

/-- `printf("%d", i)`. -/
def intStr (i : Int) : String :=
  (if i < 0 then "-" else "") ++ String.mk (natDigits i.natAbs)

/-! ## Parsing primitives (src/tomlfy.h `_Mytoml_Parse...`)

Every C `while` loop takes a fuel argument; fuel exhaustion produces
the function's loop-exit value (for loops whose fall-through returns a
value) or the failure value.  All concrete theorems run with fuel
visibly larger than the number of loop iterations. -/

/-- `_Mytoml_ParseWhitespace` (src/tomlfy.h:2596). -/
def parseWhitespace : Nat → Tokenizer → Tokenizer
  | 0, t => t
  | f + 1, t =>
    if t.hasToken then
      if isWhitespace t.token then parseWhitespace f (t.next).2
      else t
    else t
termination_by structural f => f

/-- `_Mytoml_ParseNewline` (src/tomlfy.h:2608): recognizes `\n`, or
`\r` followed by `\n`; after a lone `\r` it backtracks by the value
returned from the tokenizer advance. -/
def parseNewline (t : Tokenizer) : Bool × Tokenizer :=
  if isNewline t.token then (true, t)
  else if isReturn t.token then
    let r := t.next
    if isNewline r.2.token then (true, r.2)
    else (false, r.2.backtrace (r.1 : Int))
  else (false, t)

/-- `_Mytoml_ParseComment` (src/tomlfy.h:2578). -/
def parseComment : Nat → Tokenizer → Bool × Tokenizer
  | 0, t => (true, t)
  | f + 1, t =>
    if t.hasToken then
      let t1 := (t.next).2
      let r := parseNewline t1
      if r.1 then (true, ((r.2).next).2)
      else if iscontrol r.2.token then (false, r.2)
      else parseComment f r.2
    else (true, t)
termination_by structural f => f

/-- The final encoding block of `_Mytoml_ParseUnicode`
(src/tomlfy.h:2664): including the `num <= 0x0` comparison of the
source (so only `num = 0` reaches the one-byte branch). -/
def encodeUnicodeBytes (num : Nat) (len : Nat) : Option (List Int) :=
  if num ≤ 0 && num ≤ 127 then
    if len < 1 then none
    else some [toSChar (Nat.land num 127)]
  else if 128 ≤ num && num ≤ 2047 then
    if len < 2 then none
    else some [toSChar (Nat.land (Nat.lor 192 (num >>> 6)) 223),
               toSChar (Nat.land (Nat.lor 128 num) 191)]
  else if 2048 ≤ num && num ≤ 65535 then
    if len < 3 then none
    else some [toSChar (Nat.land (Nat.lor 224 (num >>> 12)) 239),
               toSChar (Nat.land (Nat.lor 128 (num >>> 6)) 191),
               toSChar (Nat.land (Nat.lor 128 num) 191)]
  else
    if len < 4 then none
    else some [toSChar (Nat.land (Nat.lor 240 (num >>> 18)) 247),
               toSChar (Nat.land (Nat.lor 128 (num >>> 12)) 191),
               toSChar (Nat.land (Nat.lor 128 (num >>> 6)) 191),
               toSChar (Nat.land (Nat.lor 128 num) 191)]

/-- `_Mytoml_ParseUnicode` (src/tomlfy.h:2629): collects hex digits
into `code`, requires exactly 4 or 8 of them followed by a
non-hex-digit terminator, converts with `strtoul(·, 16)`, gates the
scalar on `[0x0, 0xD7FF] ∪ [0xE000, 0x10FFFF]`, then encodes.
Returns the written byte count (0 on failure) and the bytes. -/
def parseUnicode : Nat → Tokenizer → List Int → Nat → Nat → (Nat × List Int) × Tokenizer
  | 0, t, _, _, _ => ((0, []), t)
  | f + 1, t, code, digits, len =>
    if t.hasToken then
      if digits > 8 then ((0, []), t)
      else if isHexDigit t.token || isDigit t.token then
        parseUnicode f (t.next).2 (code ++ [t.token]) (digits + 1) len
      else
        if digits ≠ 4 && digits ≠ 8 then ((0, []), t)
        else
          let r := strtoulM code 16
          if r.2 ≠ digits then ((0, []), t)
          else if r.1 ≤ 55295 || (57344 ≤ r.1 && r.1 ≤ 1114111) then
            match encodeUnicodeBytes r.1 len with
            | some bs => ((bs.length, bs), t)
            | none => ((0, []), t)
          else ((0, []), t)
    else ((0, []), t)
termination_by structural f => f

/-- `_Mytoml_ParseEscape` (src/tomlfy.h:2723). -/
def parseEscape (fuel : Nat) (t : Tokenizer) (len : Nat) : (Nat × List Int) × Tokenizer :=
  if len < 1 then ((0, []), t)
  else if t.token = 98 then ((1, [8]), (t.next).2)
  else if t.token = 116 then ((1, [9]), (t.next).2)
  else if t.token = 110 then ((1, [10]), (t.next).2)
  else if t.token = 102 then ((1, [12]), (t.next).2)
  else if t.token = 114 then ((1, [13]), (t.next).2)
  else if t.token = 34 then ((1, [34]), (t.next).2)
  else if t.token = 92 then ((1, [92]), (t.next).2)
  else if t.token = 117 || t.token = 85 then
    parseUnicode fuel ((t.next).2) [] 0 len
  else ((0, []), t)

/-- The line-continuation loop inside `_Mytoml_ParseBasicString`
(src/tomlfy.h:1900): skips whitespace and newlines after a `\` at end
of line; `hit` records whether a newline was crossed.  Note that the
loop condition and the body each call `_Mytoml_ParseNewline`, in that
order, and both calls can move the tokenizer. -/
def lineContinuation : Nat → Tokenizer → Bool → Bool × Tokenizer
  | 0, t, hit => (hit, t)
  | f + 1, t, hit =>
    let condWs := isWhitespace t.token
    let c1 : Bool × Tokenizer := if condWs then (true, t) else parseNewline t
    if condWs || c1.1 then
      let t1 := c1.2
      let t2 := if isWhitespace t1.token then parseWhitespace (f + 1) t1 else t1
      let r := parseNewline t2
      if r.1 then lineContinuation f ((r.2).next).2 true
      else lineContinuation f r.2 hit
    else (hit, c1.2)
termination_by structural f => f

/-- `_Mytoml_ParseBasicString` (src/tomlfy.h:1844). -/
def parseBasicString : Nat → Tokenizer → List Int → Bool → Option (List Int × Tokenizer)
  | 0, _, _, _ => none
  | f + 1, t, value, multi =>
    if t.hasToken then
      if value.length ≥ 4096 then none
      else if isBasicStringStart t.token then
        if !multi then some (value, (t.next).2)
        else
          let r1 := t.next
          let r2 := r1.2.next
          let t2 := r2.2
          if isBasicStringStart t2.token && isBasicStringStart t2.prev then
            let t3 := (t2.next).2
            let vt4 : List Int × Tokenizer :=
              if isBasicStringStart t3.token then (value ++ [34], (t3.next).2)
              else (value, t3)
            if vt4.1.length ≥ 4096 then none
            else if isBasicStringStart vt4.2.token then
              some (vt4.1 ++ [34], ((vt4.2).next).2)
            else some (vt4.1, vt4.2)
          else
            parseBasicString f (t2.backtrace ((r1.1 : Int) + (r2.1 : Int) - 1))
              (value ++ [34]) multi
      else
        let n1 := parseNewline t
        if n1.1 && !multi then none
        else
          let n2 := parseNewline n1.2
          if n2.1 && multi && value.length = 0 then
            parseBasicString f ((n2.2).next).2 value multi
          else if isEscape n2.2.token then
            let te := ((n2.2).next).2
            let er := parseEscape (f + 1) te 5
            let c := er.1.1
            if multi && c = 0 then
              let lc := lineContinuation (f + 1) er.2 false
              if lc.1 then parseBasicString f lc.2 value multi
              else none
            else
              if c = 0 then none
              else if c ≥ 5 then none
              else if value.length + c ≥ 4096 then none
              else
                parseBasicString f (((er.2).backtrace 1).next).2 (value ++ er.1.2) multi
          else if !multi && iscontrol n2.2.token then none
          else if multi && isControlMulti n2.2.token then none
          else parseBasicString f ((n2.2).next).2 (value ++ [n2.2.token]) multi
    else none
termination_by structural f => f

/-- `_Mytoml_ParseLiteralString` (src/tomlfy.h:1950). -/
def parseLiteralString : Nat → Tokenizer → List Int → Bool → Option (List Int × Tokenizer)
  | 0, _, _, _ => none
  | f + 1, t, value, multi =>
    if t.hasToken then
      if value.length ≥ 4096 then none
      else if isLiteralStringStart t.token then
        if !multi then some (value, (t.next).2)
        else
          let r1 := t.next
          let r2 := r1.2.next
          let t2 := r2.2
          if isLiteralStringStart t2.token && isLiteralStringStart t2.prev then
            let t3 := (t2.next).2
            let vt4 : List Int × Tokenizer :=
              if isLiteralStringStart t3.token then (value ++ [39], (t3.next).2)
              else (value, t3)
            if vt4.1.length ≥ 4096 then none
            else if isLiteralStringStart vt4.2.token then
              some (vt4.1 ++ [39], ((vt4.2).next).2)
            else some (vt4.1, vt4.2)
          else
            parseLiteralString f (t2.backtrace ((r1.1 : Int) + (r2.1 : Int) - 1))
              (value ++ [39]) multi
      else
        let n1 := parseNewline t
        if n1.1 && !multi then none
        else
          let n2 := parseNewline n1.2
          if n2.1 && multi && value.length = 0 then
            parseLiteralString f ((n2.2).next).2 value multi
          else if isControlLiteral n2.2.token then none
          else parseLiteralString f ((n2.2).next).2 (value ++ [n2.2.token]) multi
    else none
termination_by structural f => f

/-- `_Mytoml_ParseInfNan` (src/tomlfy.h:2376): returns `0.0` when
neither literal matched (the callers treat a zero result as failure). -/
def parseInfNan (t : Tokenizer) (negative : Bool) : MDouble × Tokenizer :=
  let s1 : MDouble × Tokenizer :=
    if t.token = 105 then
      let t1 := ((t.next).2.next).2
      if t1.prev = 110 && t1.token = 102 then
        ((if negative then .ninf else .inf), t1)
      else (.fin 0, t1)
    else (.fin 0, t)
  let s2 : MDouble × Tokenizer :=
    if s1.2.token = 110 then
      let t1 := ((s1.2.next).2.next).2
      if t1.prev = 97 && t1.token = 110 then (.nan, t1)
      else (s1.1, t1)
    else s1
  (s2.1, ((s2.2).next).2)

/-- `_Mytoml_ParseBoolean` (src/tomlfy.h:2463): 1.0 for `true`, 0.0
for `false`, 2.0 otherwise. -/
def parseBoolean (t : Tokenizer) : Rat × Tokenizer :=
  if t.token = 116 then
    let t1 := (((t.next).2.next).2.next).2
    if t1.prevPrev ≠ 114 || t1.prev ≠ 117 || t1.token ≠ 101 then (2, (t1.next).2)
    else (1, (t1.next).2)
  else if t.token = 102 then
    let t1 := (((t.next).2.next).2.next).2
    if t1.prevPrev ≠ 97 || t1.prev ≠ 108 || t1.token ≠ 115 then (2, (t1.next).2)
    else
      let t2 := (t1.next).2
      if t2.token = 101 then (0, (t2.next).2)
      else (2, (t2.next).2)
  else (2, (t.next).2)

/-- `_Mytoml_ParseBaseUnit` (src/tomlfy.h:2795): hex/octal/binary
magnitude with underscore separators; returns `-1` on failure. -/
def parseBaseUnit : Nat → Tokenizer → Nat → List Int → List Int → Rat × Tokenizer
  | 0, t, _, _, _ => (-1, t)
  | f + 1, t, base, value, numEnd =>
    if t.hasToken then
      if value.length ≥ 4096 then (-1, t)
      else if isNumberEnd t.token numEnd then
        if value.length = 0 then (-1, t)
        else
          let r := strtoulM value base
          if r.2 = value.length then ((r.1 : Rat), t)
          else (-1, t)
      else if isUnderscore t.token then
        let t1 := (t.next).2
        if (isDigit t1.token || (base = 16 && isHexDigit t1.token)) &&
            (isDigit t1.prevPrev || (base = 16 && isHexDigit t1.prevPrev)) then
          parseBaseUnit f (t1.next).2 base (value ++ [t1.token]) numEnd
        else (-1, t1)
      else parseBaseUnit f (t.next).2 base (value ++ [t.token]) numEnd
    else (-1, t)
termination_by structural f => f

/-- The parsed-number metadata struct `Number` (src/tomlfy.h:421). -/
structure NumberMeta where
  ntype : TomlValueType
  precision : Nat
  scientific : Bool
  deriving DecidableEq

/-- The shared finalization code of `_Mytoml_ParseNumber` (both the
number-end branch at src/tomlfy.h:2866 and the fall-through after the
loop at src/tomlfy.h:2976): `strtod`, precision adjustment, and the
leading-zero rules for integers. -/
def finishNumber (value : List Int) (n : NumberMeta) : Option (MDouble × NumberMeta) :=
  let r := strtodM value
  if r.2 ≠ value.length then none
  else
    let n := { n with precision := if n.precision > 0 then n.precision - 1 else n.precision }
    if n.ntype = .INT && r.1 ≠ 0 then
      if value.getD 0 0 = 48 then none
      else if (value.getD 0 0 = 43 || value.getD 0 0 = 45) && value.getD 1 0 = 48 then none
      else some (.fin r.1, n)
    else some (.fin r.1, n)

/-- `_Mytoml_ParseNumber` (src/tomlfy.h:2850). -/
def parseNumber : Nat → Tokenizer → List Int → List Int → NumberMeta →
    Option ((MDouble × NumberMeta) × Tokenizer)
  | 0, _, _, _, _ => none
  | f + 1, t, value, numEnd, n =>
    if t.hasToken then
      if value.length ≥ 4096 then none
      else if isNumberEnd t.token numEnd then
        match finishNumber value n with
        | some dn => some (dn, t)
        | none => none
      else if value.length = 0 && t.token = 48 then
        let t1 := (t.next).2
        if t1.token = 120 then
          let r := parseBaseUnit (f + 1) (t1.next).2 16 value numEnd
          if r.1 = -1 then none else some ((.fin r.1, n), r.2)
        else if t1.token = 111 then
          let r := parseBaseUnit (f + 1) (t1.next).2 8 value numEnd
          if r.1 = -1 then none else some ((.fin r.1, n), r.2)
        else if t1.token = 98 then
          let r := parseBaseUnit (f + 1) (t1.next).2 2 value numEnd
          if r.1 = -1 then none else some ((.fin r.1, n), r.2)
        else
          parseNumber f t1 (value ++ [48]) numEnd n
      else if isDecimalPoint t.token || isUnderscore t.token then
        let vn : List Int × NumberMeta :=
          if isDecimalPoint t.token then
            (value ++ [t.token], { n with ntype := .FLOAT, precision := 1 })
          else (value, n)
        if vn.1.length ≥ 4096 then none
        else
          let t1 := (t.next).2
          if isDigit t1.token && isDigit t1.prevPrev then
            let n1 := { vn.2 with precision :=
              if vn.2.precision > 0 then vn.2.precision + 1 else vn.2.precision }
            parseNumber f (t1.next).2 (vn.1 ++ [t1.token]) numEnd n1
          else none
      else if t.token = 105 || t.token = 110 then
        if value.length = 1 && (t.prev = 43 || t.prev = 45) then
          let r := parseInfNan t (t.prev = 45)
          if r.1 = .fin 0 then
            match finishNumber value n with
            | some dn => some (dn, r.2)
            | none => none
          else some ((r.1, { n with ntype := .FLOAT, precision := 0 }), r.2)
        else none
      else if t.token = 120 || t.token = 88 || t.token = 98 || t.token = 66 ||
          t.token = 111 || t.token = 79 then
        none
      else
        let n1 := { n with precision :=
          if n.precision > 0 then n.precision + 1 else n.precision }
        let n2 := if t.token = 101 || t.token = 69 then
            { n1 with ntype := .FLOAT, scientific := true }
          else n1
        parseNumber f (t.next).2 (value ++ [t.token]) numEnd n2
    else
      match finishNumber value n with
      | some dn => some (dn, t)
      | none => none
termination_by structural f => f

/-! ## `_Mytoml_ParseDatetime` (src/tomlfy.h:2013)

The accumulated `value` buffer is matched against nine `sscanf`
patterns in order.  `sscanf` conversions are modelled directly:
`%Nc` takes exactly `N` characters, a literal matches one character,
`%d` skips `isspace` characters and reads an optional sign and at
least one digit.  A pattern that does not convert all its fields
(`t != N`) falls through to the next; once a pattern has matched,
its semantic checks decide the whole parse (`RETURN_IF_FAILED`
returns `NULL` from `_Mytoml_ParseDatetime`). -/

def scanChars (n : Nat) (l : List Int) : Option (List Int × List Int) :=
  if l.length < n then none else some (l.take n, l.drop n)

def scanChar1 (l : List Int) : Option (Int × List Int) :=
  match l with
  | c :: r => some (c, r)
  | [] => none

def scanLit (c : Int) (l : List Int) : Option (List Int) :=
  match l with
  | x :: r => if x = c then some r else none
  | [] => none

/-- `%d`: values are kept exact (a C `int` overflow here is undefined
behaviour that no verified execution reaches). -/
def scanInt (l : List Int) : Option (Int × List Int) :=
  let l1 := l.drop (l.takeWhile isCSpace).length
  let sp : Bool × List Int :=
    match l1 with
    | 43 :: r => (false, r)
    | 45 :: r => (true, r)
    | r => (false, r)
  let dg := digitsLoop 10 sp.2 0 0
  if dg.2 = 0 then none
  else some ((if sp.1 then -(dg.1 : Int) else (dg.1 : Int)), sp.2.drop dg.2)

/-- The `Datetime` result struct (src/tomlfy.h:442). -/
structure DatetimeR where
  tm : Tm
  dtype : TomlValueType
  format : String
  millis : Int
  deriving DecidableEq

/-- `CHECK_DATETIME(VAR, LEN)` (src/tomlfy.h:284): the field must have
`strlen = LEN` and `strtoul` base 10 must consume exactly `LEN`
characters; yields the converted `unsigned long`. -/
def checkDTField (chars : List Int) (len : Nat) : Option Nat :=
  if (cstr chars).length = len then
    let r := strtoulM chars 10
    if r.2 = len then some r.1 else none
  else none

/-- `CHECK_DATE()` (src/tomlfy.h:297): stores `num - 1900`, `num - 1`
and `num` into the C `int` fields of `struct tm` (unsigned-long
subtraction truncated to `int`). -/
def checkDate (year mon mday : List Int) (t : Tm) : Option Tm := do
  let y ← checkDTField year 4
  let t1 := { t with tm_year := toInt32 (usub64 y 1900) }
  let m ← checkDTField mon 2
  let t2 := { t1 with tm_mon := toInt32 (usub64 m 1) }
  let d ← checkDTField mday 2
  some { t2 with tm_mday := toInt32 d }

/-- `CHECK_TIME()` (src/tomlfy.h:313). -/
def checkTime (hour minu sec : List Int) (t : Tm) : Option Tm := do
  let h ← checkDTField hour 2
  let t1 := { t with tm_hour := toInt32 h }
  let m ← checkDTField minu 2
  let t2 := { t1 with tm_min := toInt32 m }
  let s ← checkDTField sec 2
  some { t2 with tm_sec := toInt32 s }

/-- The offset validation of the two offset-datetime branches
(src/tomlfy.h:2056 and 2109): `CHECK_DATETIME(off_h, 2)` then
`0 <= num <= 23`, `CHECK_DATETIME(off_m, 2)` then `0 <= num <= 59`. -/
def checkOffsetPair (offH offM : List Int) : Option (Nat × Nat) := do
  let oh ← checkDTField offH 2
  if oh ≤ 23 then
    let om ← checkDTField offM 2
    if om ≤ 59 then some (oh, om) else none
  else none

/-- `floor(log10(abs(millis))) + 1` as used for the fractional-second
digit count; for `millis = 0` the C value is `-HUGE_VAL` and the
subsequent length equality can never hold, modelled as `none`. -/
def mlenOf (millis : Int) : Option Nat :=
  if millis = 0 then none else some (decDigits millis.natAbs)

/-- `snprintf` into a buffer of size `sz` keeps at most `sz - 1`
characters. -/
def snprintfTake (sz : Nat) (s : String) : String :=
  String.mk (s.data.take (sz - 1))

def delimOK (c : Int) : Bool := c = 84 || c = 116 || c = 32

def scaleMillis (mlen : Nat) (millis : Int) : Int :=
  if mlen = 1 then millis * 100 else if mlen = 2 then millis * 10 else millis

/-- DATETIME with millisecond and offset (src/tomlfy.h:2043).
`none` = the sscanf pattern did not fully match (try next pattern);
`some none` = matched but a semantic check failed (whole parse fails);
`some (some dt)` = accepted. -/
def tryPat1 (value : List Int) (spaces : Nat) (t0 : Tm) : Option (Option DatetimeR) :=
  match scanChars 4 value with
  | none => none
  | some (year, l) =>
  match scanLit 45 l with
  | none => none
  | some l =>
  match scanChars 2 l with
  | none => none
  | some (mon, l) =>
  match scanLit 45 l with
  | none => none
  | some l =>
  match scanChars 2 l with
  | none => none
  | some (mday, l) =>
  match scanChar1 l with
  | none => none
  | some (delim, l) =>
  match scanChars 2 l with
  | none => none
  | some (hour, l) =>
  match scanLit 58 l with
  | none => none
  | some l =>
  match scanChars 2 l with
  | none => none
  | some (minu, l) =>
  match scanLit 58 l with
  | none => none
  | some l =>
  match scanChars 2 l with
  | none => none
  | some (sec, l) =>
  match scanLit 46 l with
  | none => none
  | some l =>
  match scanInt l with
  | none => none
  | some (millis, l) =>
  match scanChar1 l with
  | none => none
  | some (offS, l) =>
  match scanChars 2 l with
  | none => none
  | some (offH, l) =>
  match scanLit 58 l with
  | none => none
  | some l =>
  match scanChars 2 l with
  | none => none
  | some (offM, _) =>
  some (do
      guard (delim ≠ 0)
      guard (offS ≠ 0)
      guard (delimOK delim)
      guard (offS = 43 ∨ offS = 45)
      let t ← checkDate year mon mday t0
      let t ← checkTime hour minu sec t
      guard (isValidDatetime t)
      let _ ← checkOffsetPair offH offM
      let spaces := if delim = 32 then 0 else spaces
      let mlen ← mlenOf millis
      let millis := scaleMillis mlen millis
      guard (value.length = "YYYY-mm-DDTHH:MM:SS.-HH:MM".length + mlen + spaces)
      let mlen3 := max mlen 3
      let sz := "%Y-%m-%dT%H:%M:%S.-HH:MM".length + mlen3 + 1
      guard (sz < 64)
      let fmt := snprintfTake sz ("%Y-%m-%dT%H:%M:%S." ++ intStr millis ++
        String.mk [schrToChar offS] ++ bytesStr (cstr offH) ++ ":" ++ bytesStr (cstr offM))
      some { tm := t, dtype := .DATETIME, format := fmt, millis := millis })

/-- DATETIME with offset (src/tomlfy.h:2096). -/
def tryPat2 (value : List Int) (spaces : Nat) (t0 : Tm) : Option (Option DatetimeR) :=
  match scanChars 4 value with
  | none => none
  | some (year, l) =>
  match scanLit 45 l with
  | none => none
  | some l =>
  match scanChars 2 l with
  | none => none
  | some (mon, l) =>
  match scanLit 45 l with
  | none => none
  | some l =>
  match scanChars 2 l with
  | none => none
  | some (mday, l) =>
  match scanChar1 l with
  | none => none
  | some (delim, l) =>
  match scanChars 2 l with
  | none => none
  | some (hour, l) =>
  match scanLit 58 l with
  | none => none
  | some l =>
  match scanChars 2 l with
  | none => none
  | some (minu, l) =>
  match scanLit 58 l with
  | none => none
  | some l =>
  match scanChars 2 l with
  | none => none
  | some (sec, l) =>
  match scanChar1 l with
  | none => none
  | some (offS, l) =>
  match scanChars 2 l with
  | none => none
  | some (offH, l) =>
  match scanLit 58 l with
  | none => none
  | some l =>
  match scanChars 2 l with
  | none => none
  | some (offM, _) =>
  some (do
      guard (delim ≠ 0)
      guard (offS ≠ 0)
      guard (delimOK delim)
      guard (offS = 43 ∨ offS = 45)
      let t ← checkDate year mon mday t0
      let t ← checkTime hour minu sec t
      guard (isValidDatetime t)
      let _ ← checkOffsetPair offH offM
      let spaces := if delim = 32 then 0 else spaces
      guard (value.length = "YYYY-mm-DDTHH:MM:SS-HH:MM".length + spaces)
      let sz := "%Y-%m-%dT%H:%M:%S-HH:MM".length + 1
      guard (sz < 64)
      let fmt := snprintfTake sz ("%Y-%m-%dT%H:%M:%S" ++ String.mk [schrToChar offS] ++
        bytesStr (cstr offH) ++ ":" ++ bytesStr (cstr offM))
      some { tm := t, dtype := .DATETIME, format := fmt, millis := 0 })

/-- DATETIME with millisecond and timezone (src/tomlfy.h:2138). -/
def tryPat3 (value : List Int) (spaces : Nat) (t0 : Tm) : Option (Option DatetimeR) :=
  match scanChars 4 value with
  | none => none
  | some (year, l) =>
  match scanLit 45 l with
  | none => none
  | some l =>
  match scanChars 2 l with
  | none => none
  | some (mon, l) =>
  match scanLit 45 l with
  | none => none
  | some l =>
  match scanChars 2 l with
  | none => none
  | some (mday, l) =>
  match scanChar1 l with
  | none => none
  | some (delim, l) =>
  match scanChars 2 l with
  | none => none
  | some (hour, l) =>
  match scanLit 58 l with
  | none => none
  | some l =>
  match scanChars 2 l with
  | none => none
  | some (minu, l) =>
  match scanLit 58 l with
  | none => none
  | some l =>
  match scanChars 2 l with
  | none => none
  | some (sec, l) =>
  match scanLit 46 l with
  | none => none
  | some l =>
  match scanInt l with
  | none => none
  | some (millis, l) =>
  match scanChar1 l with
  | none => none
  | some (tz, _) =>
  some (do
      guard (delim ≠ 0)
      guard (tz ≠ 0)
      guard (delimOK delim)
      guard (tz = 90 ∨ tz = 122)
      let t ← checkDate year mon mday t0
      let t ← checkTime hour minu sec t
      guard (isValidDatetime t)
      let spaces := if delim = 32 then 0 else spaces
      let mlen ← mlenOf millis
      let millis := scaleMillis mlen millis
      guard (value.length = "YYYY-mm-DDTHH:MM:SS.Z".length + mlen + spaces)
      let mlen3 := max mlen 3
      let sz := "%Y-%m-%dT%H:%M:%S.Z".length + mlen3 + 1
      guard (sz < 64)
      let fmt := snprintfTake sz ("%Y-%m-%dT%H:%M:%S." ++ intStr millis ++ "Z")
      some { tm := t, dtype := .DATETIME, format := fmt, millis := millis })

/-- DATETIMELOCAL with millisecond (src/tomlfy.h:2179). -/
def tryPat4 (value : List Int) (spaces : Nat) (t0 : Tm) : Option (Option DatetimeR) :=
  match scanChars 4 value with
  | none => none
  | some (year, l) =>
  match scanLit 45 l with
  | none => none
  | some l =>
  match scanChars 2 l with
  | none => none
  | some (mon, l) =>
  match scanLit 45 l with
  | none => none
  | some l =>
  match scanChars 2 l with
  | none => none
  | some (mday, l) =>
  match scanChar1 l with
  | none => none
  | some (delim, l) =>
  match scanChars 2 l with
  | none => none
  | some (hour, l) =>
  match scanLit 58 l with
  | none => none
  | some l =>
  match scanChars 2 l with
  | none => none
  | some (minu, l) =>
  match scanLit 58 l with
  | none => none
  | some l =>
  match scanChars 2 l with
  | none => none
  | some (sec, l) =>
  match scanLit 46 l with
  | none => none
  | some l =>
  match scanInt l with
  | none => none
  | some (millis, _) =>
  some (do
      guard (delim ≠ 0)
      guard (delimOK delim)
      let t ← checkDate year mon mday t0
      let t ← checkTime hour minu sec t
      guard (isValidDatetime t)
      let spaces := if delim = 32 then 0 else spaces
      let mlen ← mlenOf millis
      let millis := scaleMillis mlen millis
      guard (value.length = "YYYY-mm-DDTHH:MM:SS.".length + mlen + spaces)
      let mlen3 := max mlen 3
      let sz := "%Y-%m-%dT%H:%M:%S.".length + mlen3 + 1
      guard (sz < 64)
      let fmt := snprintfTake sz ("%Y-%m-%dT%H:%M:%S." ++ intStr millis)
      some { tm := t, dtype := .DATETIMELOCAL, format := fmt, millis := millis })

/-- DATETIME with timezone (src/tomlfy.h:2216).  The C code computes
`mlen` here from the `millis` variable even though this pattern has no
fractional field; that computation has no observable effect on this
branch (it is used neither in the length check nor in the format). -/
def tryPat5 (value : List Int) (spaces : Nat) (t0 : Tm) : Option (Option DatetimeR) :=
  match scanChars 4 value with
  | none => none
  | some (year, l) =>
  match scanLit 45 l with
  | none => none
  | some l =>
  match scanChars 2 l with
  | none => none
  | some (mon, l) =>
  match scanLit 45 l with
  | none => none
  | some l =>
  match scanChars 2 l with
  | none => none
  | some (mday, l) =>
  match scanChar1 l with
  | none => none
  | some (delim, l) =>
  match scanChars 2 l with
  | none => none
  | some (hour, l) =>
  match scanLit 58 l with
  | none => none
  | some l =>
  match scanChars 2 l with
  | none => none
  | some (minu, l) =>
  match scanLit 58 l with
  | none => none
  | some l =>
  match scanChars 2 l with
  | none => none
  | some (sec, l) =>
  match scanChar1 l with
  | none => none
  | some (tz, _) =>
  some (do
      guard (delim ≠ 0)
      guard (tz ≠ 0)
      guard (delimOK delim)
      guard (tz = 90 ∨ tz = 122)
      let t ← checkDate year mon mday t0
      let t ← checkTime hour minu sec t
      guard (isValidDatetime t)
      let spaces := if delim = 32 then 0 else spaces
      guard (value.length = "YYYY-mm-DDTHH:MM:SSZ".length + spaces)
      let sz := "%Y-%m-%dT%H:%M:%SZ".length + 1
      guard (sz < 64)
      some { tm := t, dtype := .DATETIME, format := "%Y-%m-%dT%H:%M:%SZ", millis := 0 })

/-- DATETIMELOCAL (src/tomlfy.h:2255). -/
def tryPat6 (value : List Int) (spaces : Nat) (t0 : Tm) : Option (Option DatetimeR) :=
  match scanChars 4 value with
  | none => none
  | some (year, l) =>
  match scanLit 45 l with
  | none => none
  | some l =>
  match scanChars 2 l with
  | none => none
  | some (mon, l) =>
  match scanLit 45 l with
  | none => none
  | some l =>
  match scanChars 2 l with
  | none => none
  | some (mday, l) =>
  match scanChar1 l with
  | none => none
  | some (delim, l) =>
  match scanChars 2 l with
  | none => none
  | some (hour, l) =>
  match scanLit 58 l with
  | none => none
  | some l =>
  match scanChars 2 l with
  | none => none
  | some (minu, l) =>
  match scanLit 58 l with
  | none => none
  | some l =>
  match scanChars 2 l with
  | none => none
  | some (sec, _) =>
  some (do
      guard (delim ≠ 0)
      guard (delimOK delim)
      let t ← checkDate year mon mday t0
      let t ← checkTime hour minu sec t
      guard (isValidDatetime t)
      let spaces := if delim = 32 then 0 else spaces
      guard (value.length = "YYYY-mm-DDTHH:MM:SS".length + spaces)
      guard ("%Y-%m-%dT%H:%M:%S".length < 64)
      some { tm := t, dtype := .DATETIMELOCAL, format := "%Y-%m-%dT%H:%M:%S", millis := 0 })

/-- DATELOCAL (src/tomlfy.h:2284). -/
def tryPat7 (value : List Int) (spaces : Nat) (t0 : Tm) : Option (Option DatetimeR) :=
  match scanChars 4 value with
  | none => none
  | some (year, l) =>
  match scanLit 45 l with
  | none => none
  | some l =>
  match scanChars 2 l with
  | none => none
  | some (mon, l) =>
  match scanLit 45 l with
  | none => none
  | some l =>
  match scanChars 2 l with
  | none => none
  | some (mday, _) =>
  some (do
      let t ← checkDate year mon mday t0
      guard (isValidDatetime t)
      guard (value.length = "YYYY-mm-DD".length + spaces)
      guard ("%Y-%m-%d".length < 64)
      some { tm := t, dtype := .DATELOCAL, format := "%Y-%m-%d", millis := 0 })

/-- TIMELOCAL with millisecond (src/tomlfy.h:2304). -/
def tryPat8 (value : List Int) (spaces : Nat) (t0 : Tm) : Option (Option DatetimeR) :=
  match scanChars 2 value with
  | none => none
  | some (hour, l) =>
  match scanLit 58 l with
  | none => none
  | some l =>
  match scanChars 2 l with
  | none => none
  | some (minu, l) =>
  match scanLit 58 l with
  | none => none
  | some l =>
  match scanChars 2 l with
  | none => none
  | some (sec, l) =>
  match scanLit 46 l with
  | none => none
  | some l =>
  match scanInt l with
  | none => none
  | some (millis, _) =>
  some (do
      let t ← checkTime hour minu sec t0
      let t := { t with tm_year := 0, tm_mon := 0, tm_mday := 1 }
      guard (isValidDatetime t)
      let mlen ← mlenOf millis
      let millis := scaleMillis mlen millis
      guard (value.length = "HH:MM:SS.".length + mlen + spaces)
      let mlen3 := max mlen 3
      let sz := "%H:%M:%S.".length + mlen3 + 1
      guard (sz < 64)
      let fmt := snprintfTake sz ("%H:%M:%S." ++ intStr millis)
      some { tm := t, dtype := .TIMELOCAL, format := fmt, millis := millis })

/-- TIMELOCAL (src/tomlfy.h:2335). -/
def tryPat9 (value : List Int) (spaces : Nat) (t0 : Tm) : Option (Option DatetimeR) :=
  match scanChars 2 value with
  | none => none
  | some (hour, l) =>
  match scanLit 58 l with
  | none => none
  | some l =>
  match scanChars 2 l with
  | none => none
  | some (minu, l) =>
  match scanLit 58 l with
  | none => none
  | some l =>
  match scanChars 2 l with
  | none => none
  | some (sec, _) =>
  some (do
      let t ← checkTime hour minu sec t0
      let t := { t with tm_year := 0, tm_mon := 0, tm_mday := 1 }
      guard (isValidDatetime t)
      guard (value.length = "HH:MM:SS".length + spaces)
      guard ("%H:%M:%S".length < 64)
      some { tm := t, dtype := .TIMELOCAL, format := "%H:%M:%S", millis := 0 })

/-- The pattern cascade of `_Mytoml_ParseDatetime`: patterns are tried
in source order; the first whose `sscanf` fully matches decides. -/
def tryPatterns (value : List Int) (spaces : Nat) (t0 : Tm) : Option DatetimeR :=
  match tryPat1 value spaces t0 with
  | some r => r
  | none =>
  match tryPat2 value spaces t0 with
  | some r => r
  | none =>
  match tryPat3 value spaces t0 with
  | some r => r
  | none =>
  match tryPat4 value spaces t0 with
  | some r => r
  | none =>
  match tryPat5 value spaces t0 with
  | some r => r
  | none =>
  match tryPat6 value spaces t0 with
  | some r => r
  | none =>
  match tryPat7 value spaces t0 with
  | some r => r
  | none =>
  match tryPat8 value spaces t0 with
  | some r => r
  | none =>
  match tryPat9 value spaces t0 with
  | some r => r
  | none => none

/-- `_Mytoml_ParseDatetime` (src/tomlfy.h:2013): accumulate the value
(allowing a single interior whitespace character), then match the
patterns.  The tokenizer is left on the terminating character. -/
def parseDatetime : Nat → Tokenizer → List Int → List Int → Nat → Tm →
    Option (DatetimeR × Tokenizer)
  | 0, _, _, _, _, _ => none
  | f + 1, t, value, numEnd, spaces, tm =>
    if t.hasToken then
      if value.length ≥ 4096 then none
      else if (isWhitespace t.token && spaces ≠ 0) ||
          (!isWhitespace t.token && isNumberEnd t.token numEnd) then
        match tryPatterns (cstr value) spaces tm with
        | some dt => some (dt, t)
        | none => none
      else
        let spaces := if isWhitespace t.token then spaces + 1 else spaces
        parseDatetime f (t.next).2 (value ++ [t.token]) numEnd spaces tm
    else none

/-! ## Key parsers and statement dispatch

C builds the tree through pointers returned by `_Mytoml_AddSubKey`;
here every such pointer is the access path of the node inside the
local root being built, and "mutation through the pointer" is
`TomlKey.modifyAt` at that path. -/

def newKeyId (ty : TomlKeyType) (id : List Int) : TomlKey :=
  .mk ty (cstr id) [] none 18446744073709551615

/-- `_Mytoml_ParserBareKey` (src/tomlfy.h:1436); `id` is the
accumulated identifier and `done` the seen-whitespace flag. -/
def parserBareKey : Nat → Tokenizer → Int → TomlKeyType → TomlKeyType → List Int → Bool →
    Option (TomlKey × Tokenizer)
  | 0, _, _, _, _, _, _ => none
  | f + 1, t, endc, branch, leaf, id, done =>
    if t.hasToken then
      if id.length ≥ 256 then none
      else if isDot t.token then
        if id.length = 0 then none else some (newKeyId branch id, t)
      else if t.token = endc then
        if id.length = 0 then none else some (newKeyId leaf id, t)
      else if isWhitespace t.token then
        parserBareKey f (parseWhitespace (f + 1) t) endc branch leaf id true
      else if isBareAscii t.token && !done then
        parserBareKey f (t.next).2 endc branch leaf (id ++ [t.token]) done
      else none
    else none
termination_by structural f => f

/-- `_Mytoml_ParserBAsicQuotedKey` (src/tomlfy.h:1480). -/
def parserBasicQuotedKey : Nat → Tokenizer → Int → TomlKeyType → TomlKeyType → List Int →
    Option (TomlKey × Tokenizer)
  | 0, _, _, _, _, _ => none
  | f + 1, t, endc, branch, leaf, id =>
    if t.hasToken then
      if id.length ≥ 256 then none
      else if isBasicStringStart t.token then
        let t1 := (t.next).2
        let t2 := if isWhitespace t1.token then parseWhitespace (f + 1) t1 else t1
        if isDot t2.token then some (newKeyId branch id, t2)
        else if t2.token = endc then some (newKeyId leaf id, t2)
        else none
      else if isNewline t.token then none
      else if isEscape t.token then
        let te := (t.next).2
        let er := parseEscape (f + 1) te 5
        let c := er.1.1
        if c = 0 then none
        else if c ≥ 5 then none
        else if id.length + c ≥ 256 then none
        else
          parserBasicQuotedKey f (((er.2).backtrace 1).next).2 endc branch leaf (id ++ er.1.2)
      else if iscontrol t.token then none
      else parserBasicQuotedKey f (t.next).2 endc branch leaf (id ++ [t.token])
    else none
termination_by structural f => f

/-- `_Mytoml_ParserLiteralQuotedKey` (src/tomlfy.h:1545). -/
def parserLiteralQuotedKey : Nat → Tokenizer → Int → TomlKeyType → TomlKeyType → List Int →
    Option (TomlKey × Tokenizer)
  | 0, _, _, _, _, _ => none
  | f + 1, t, endc, branch, leaf, id =>
    if t.hasToken then
      if id.length ≥ 256 then none
      else if isLiteralStringStart t.token then
        let t1 := (t.next).2
        let t2 := if isWhitespace t1.token then parseWhitespace (f + 1) t1 else t1
        if isDot t2.token then some (newKeyId branch id, t2)
        else if t2.token = endc then some (newKeyId leaf id, t2)
        else none
      else if isNewline t.token then none
      else if isControlLiteral t.token then none
      else parserLiteralQuotedKey f (t.next).2 endc branch leaf (id ++ [t.token])
    else none
termination_by structural f => f

/-- `_Mytoml_ParseKey` (src/tomlfy.h:1594) on the subtree of `root` at
`base`; returns the new root and the path of the returned node. -/
def parseKey : Nat → Tokenizer → TomlKey → List PathStep → Bool →
    Option (Tokenizer × TomlKey × List PathStep)
  | 0, _, _, _, _ => none
  | f + 1, t, root, base, expecting =>
    if t.hasToken then
      if isEqual t.token then
        if expecting then none else some ((t.next).2, root, base)
      else if isDot t.token then
        if expecting then none else parseKey f (t.next).2 root base true
      else if isWhitespace t.token then
        parseKey f (parseWhitespace (f + 1) t) root base expecting
      else if isBasicStringStart t.token then
        match parserBasicQuotedKey (f + 1) (t.next).2 61 .KEY .KEYLEAF [] with
        | none => none
        | some (sub, t1) =>
          match addSubKeyAt (f + 1) root base sub with
          | none => none
          | some (root1, p) => parseKey f t1 root1 p false
      else if isLiteralStringStart t.token then
        match parserLiteralQuotedKey (f + 1) (t.next).2 61 .KEY .KEYLEAF [] with
        | none => none
        | some (sub, t1) =>
          match addSubKeyAt (f + 1) root base sub with
          | none => none
          | some (root1, p) => parseKey f t1 root1 p false
      else
        match parserBareKey (f + 1) t 61 .KEY .KEYLEAF [] false with
        | none => none
        | some (sub, t1) =>
          match addSubKeyAt (f + 1) root base sub with
          | none => none
          | some (root1, p) => parseKey f t1 root1 p false
    else none
termination_by structural f => f

/-- `_Mytoml_ParseTable` (src/tomlfy.h:1644). -/
def parseTable : Nat → Tokenizer → TomlKey → List PathStep → Bool →
    Option (Tokenizer × TomlKey × List PathStep)
  | 0, _, _, _, _ => none
  | f + 1, t, root, base, expecting =>
    if t.hasToken then
      if isTableEnd t.token then
        if expecting then none else some ((t.next).2, root, base)
      else if isDot t.token then
        if expecting then none else parseTable f (t.next).2 root base true
      else if isWhitespace t.token then
        parseTable f (parseWhitespace (f + 1) t) root base expecting
      else if isBasicStringStart t.token then
        match parserBasicQuotedKey (f + 1) (t.next).2 93 .TABLE .TABLELEAF [] with
        | none => none
        | some (sub, t1) =>
          match addSubKeyAt (f + 1) root base sub with
          | none => none
          | some (root1, p) => parseTable f t1 root1 p false
      else if isLiteralStringStart t.token then
        match parserLiteralQuotedKey (f + 1) (t.next).2 93 .TABLE .TABLELEAF [] with
        | none => none
        | some (sub, t1) =>
          match addSubKeyAt (f + 1) root base sub with
          | none => none
          | some (root1, p) => parseTable f t1 root1 p false
      else
        match parserBareKey (f + 1) t 93 .TABLE .TABLELEAF [] false with
        | none => none
        | some (sub, t1) =>
          match addSubKeyAt (f + 1) root base sub with
          | none => none
          | some (root1, p) => parseTable f t1 root1 p false
    else none
termination_by structural f => f

/-- `_Mytoml_ParseArrayTable` (src/tomlfy.h:1694): like `parseTable`
with leaf kind `ARRAYTABLE`, and the closing must be exactly `]]`. -/
def parseArrayTable : Nat → Tokenizer → TomlKey → List PathStep → Bool →
    Option (Tokenizer × TomlKey × List PathStep)
  | 0, _, _, _, _ => none
  | f + 1, t, root, base, expecting =>
    if t.hasToken then
      if isTableEnd t.token then
        if expecting then none
        else
          let t1 := (t.next).2
          if isTableEnd t1.token then some ((t1.next).2, root, base)
          else none
      else if isDot t.token then
        if expecting then none else parseArrayTable f (t.next).2 root base true
      else if isWhitespace t.token then
        parseArrayTable f (parseWhitespace (f + 1) t) root base expecting
      else if isBasicStringStart t.token then
        match parserBasicQuotedKey (f + 1) (t.next).2 93 .TABLE .ARRAYTABLE [] with
        | none => none
        | some (sub, t1) =>
          match addSubKeyAt (f + 1) root base sub with
          | none => none
          | some (root1, p) => parseArrayTable f t1 root1 p false
      else if isLiteralStringStart t.token then
        match parserLiteralQuotedKey (f + 1) (t.next).2 93 .TABLE .ARRAYTABLE [] with
        | none => none
        | some (sub, t1) =>
          match addSubKeyAt (f + 1) root base sub with
          | none => none
          | some (root1, p) => parseArrayTable f t1 root1 p false
      else
        match parserBareKey (f + 1) t 93 .TABLE .ARRAYTABLE [] false with
        | none => none
        | some (sub, t1) =>
          match addSubKeyAt (f + 1) root base sub with
          | none => none
          | some (root1, p) => parseArrayTable f t1 root1 p false
    else none
termination_by structural f => f

/-- Adding the children of a parsed inline table one by one under a
node (the splice loops at src/tomlfy.h:1816 and 2553). -/
def spliceInline (fuel : Nat) (root : TomlKey) (p : List PathStep) :
    List TomlKey → Option TomlKey
  | [] => some root
  | c :: rest =>
    match addSubKeyAt fuel root p c with
    | some r => spliceInline fuel r.1 p rest
    | none => none
termination_by structural l => l

/-- `_Mytoml_ParseNumber` preceded by its caller's initialization of
the `Number` struct (src/tomlfy.h:2859: type `INT`, precision 0, not
scientific), packaged as at the call site src/tomlfy.h:3113. -/
def numberTail (fuel : Nat) (t : Tokenizer) (numEnd : List Int) :
    Option (TomlValue × Tokenizer) :=
  match parseNumber fuel t [] numEnd { ntype := .INT, precision := 0, scientific := false } with
  | some (dn, t1) => some (newNumberValue dn.1 dn.2.ntype dn.2.precision dn.2.scientific, t1)
  | none => none

mutual
/-- `_Mytoml_ParseValue` (src/tomlfy.h:2993). -/
def parseValue : Nat → Tokenizer → List Int → Option (TomlValue × Tokenizer)
  | 0, _, _ => none
  | f + 1, t, numEnd =>
    if t.hasToken then
      let n0 := parseNewline t
      if n0.1 then none
      else
        let t := n0.2
        if isWhitespace t.token then
          parseValue f (parseWhitespace (f + 1) t) numEnd
        else if isBasicStringStart t.token then
          let t1 := (t.next).2
          if t1.hasToken && isBasicStringStart t1.token then
            let t2 := (t1.next).2
            if t2.hasToken && isBasicStringStart t2.token then
              match parseBasicString (f + 1) (t2.next).2 [] true with
              | some (s, t3) => some (newStringValue s, t3)
              | none => none
            else if isWhitespace t2.token then some (newStringValue [], t2)
            else
              let nw := parseNewline t2
              if nw.1 then some (newStringValue [], nw.2)
              else none
          else
            match parseBasicString (f + 1) t1 [] false with
            | some (s, t2) => some (newStringValue s, t2)
            | none => none
        else if isLiteralStringStart t.token then
          let t1 := (t.next).2
          if t1.hasToken && isLiteralStringStart t1.token then
            let t2 := (t1.next).2
            if t2.hasToken && isLiteralStringStart t2.token then
              match parseLiteralString (f + 1) (t2.next).2 [] true with
              | some (s, t3) => some (newStringValue s, t3)
              | none => none
            else if isWhitespace t2.token then some (newStringValue [], t2)
            else
              let nw := parseNewline t2
              if nw.1 then some (newStringValue [], nw.2)
              else none
          else
            match parseLiteralString (f + 1) t1 [] false with
            | some (s, t2) => some (newStringValue s, t2)
            | none => none
        else if isNumberStart t.token then
          let r1 := t.next
          let r2 := r1.2.next
          let t2 := r2.2
          if t2.hasToken && t2.token = 58 then
            let t3 := t2.backtrace ((r1.1 + r2.1 : Nat) : Int)
            match parseDatetime (f + 1) t3 [] numEnd 0 {} with
            | some (dt, t4) =>
              some (newDatetimeValue dt.tm dt.dtype dt.format dt.millis.toNat, t4)
            | none => none
          else if !isDigit t2.prev || !isDigit t2.token then
            numberTail (f + 1) (t2.backtrace ((r1.1 + r2.1 : Nat) : Int)) numEnd
          else
            let r3 := t2.next
            let r4 := r3.2.next
            let t4 := r4.2
            if t4.hasToken && t4.token = 45 then
              let t5 := t4.backtrace ((r1.1 + r2.1 + r3.1 + r4.1 : Nat) : Int)
              match parseDatetime (f + 1) t5 [] numEnd 0 {} with
              | some (dt, t6) =>
                some (newDatetimeValue dt.tm dt.dtype dt.format dt.millis.toNat, t6)
              | none => none
            else
              numberTail (f + 1) (t4.backtrace ((r1.1 + r2.1 + r3.1 + r4.1 : Nat) : Int)) numEnd
        else if isArrayStart t.token then
          match parseArray f (t.next).2 newArrayValue true with
          | some r => some r
          | none => none
        else if isInlineTableStart t.token then
          match parseInlineTable f (t.next).2 (newKey .TABLE) true true with
          | some (keys, t1) => some (newTableValue keys, t1)
          | none => none
        else if t.token = 116 || t.token = 102 then
          let r := parseBoolean t
          if r.1 = 1 || r.1 = 0 then some (newNumberValue (.fin r.1) .BOOL 0 false, r.2)
          else none
        else if t.token = 105 || t.token = 110 then
          let r := parseInfNan t false
          if r.1.truthy then
            some (newNumberValue r.1 .FLOAT 0 false, r.2)
          else none
        else none
    else none
termination_by structural f => f

/-- `_Mytoml_ParseArray` (src/tomlfy.h:2418); `sep` starts true. -/
def parseArray : Nat → Tokenizer → TomlValue → Bool → Option (TomlValue × Tokenizer)
  | 0, _, _, _ => none
  | f + 1, t, arr, sep =>
    if t.hasToken then
      if arr.len ≥ 131072 then none
      else if isArrayEnd t.token then some (arr, (t.next).2)
      else if isArraySep t.token then
        if sep then none
        else parseArray f (t.next).2 arr true
      else
        let nw := parseNewline t
        if nw.1 then parseArray f ((nw.2).next).2 arr sep
        else if isWhitespace nw.2.token then
          parseArray f (parseWhitespace (f + 1) nw.2) arr sep
        else if isCommentStart nw.2.token then
          let c := parseComment (f + 1) nw.2
          if c.1 then parseArray f c.2 arr sep else none
        else if !sep then none
        else
          match parseValue f nw.2 (strBytes "#,] \n") with
          | some (v, t1) =>
            parseArray f t1 (TomlValue.mk arr.vtype (arr.arr ++ [v]) (arr.len + 1)
              arr.vdata arr.precision arr.scientific arr.format) false
          | none => none
    else none
termination_by structural f => f

/-- `_Mytoml_ParseInlineTable` (src/tomlfy.h:2507); `keys` is the local
table root, `sep` and `first` start true. -/
def parseInlineTable : Nat → Tokenizer → TomlKey → Bool → Bool → Option (TomlKey × Tokenizer)
  | 0, _, _, _, _ => none
  | f + 1, t, keys, sep, first =>
    if t.hasToken then
      if isInlineTableEnd t.token then
        if !sep || first then some (keys, (t.next).2)
        else none
      else if isInlineTableSep t.token then
        if sep then none
        else parseInlineTable f (t.next).2 keys true first
      else
        let nw := parseNewline t
        if nw.1 then none
        else if isWhitespace nw.2.token then
          parseInlineTable f (parseWhitespace (f + 1) nw.2) keys sep first
        else if !sep then none
        else
          match parseKey (f + 1) nw.2 keys [] true with
          | none => none
          | some (t1, keys1, pk) =>
            match parseValue f t1 (strBytes ", \x7d") with
            | none => none
            | some (v, t2) =>
              if v.vtype = .INLINETABLE then
                match v.vdata with
                | .key h =>
                  let keys2 := keys1.modifyAt pk (fun n => n.withType .KEY)
                  match spliceInline (f + 1) keys2 pk h.subkeys with
                  | none => none
                  | some keys3 =>
                    parseInlineTable f (parseWhitespace (f + 1) t2)
                      (keys3.modifyAt pk (fun n => n.withType .KEYLEAF)) false false
                | _ => none
              else
                parseInlineTable f (parseWhitespace (f + 1) t2)
                  (keys1.modifyAt pk (fun n => n.withValue (some v))) false false
    else none
termination_by structural f => f
end

/-- Write `v` at index `i` of the preallocated `arr` pointer array;
the parser only ever writes at the next free slot. -/
def arrWrite (l : List TomlValue) (i : Nat) (v : TomlValue) : List TomlValue :=
  if i = l.length then l ++ [v] else l.set i v

/-- `_Mytoml_ParseKeyValue` (src/tomlfy.h:1746): one statement.
`keyPath` is the current key (where assignments attach), the result
carries the possibly rebound current key. -/
def parseKeyValue (fuel : Nat) (t : Tokenizer) (root : TomlKey) (keyPath : List PathStep) :
    Option (Tokenizer × TomlKey × List PathStep) :=
  if isCommentStart t.token then
    let c := parseComment fuel t
    if c.1 then some (c.2, root, keyPath) else none
  else if isWhitespace t.token then
    some (parseWhitespace fuel t, root, keyPath)
  else
    let nw := parseNewline t
    if nw.1 then some (((nw.2).next).2, root, keyPath)
    else if isTableStart nw.2.token then
      let t1 := ((nw.2).next).2
      if isTableStart t1.token then
        match parseArrayTable fuel (t1.next).2 root [] true with
        | none => none
        | some (t2, root1, tp) =>
          match root1.getAt tp with
          | none => none
          | some tk =>
            let root2 :=
              if tk.value.isNone then
                root1.modifyAt tp (fun n => n.withValue (some newArrayValue))
              else root1
            match root2.getAt tp with
            | none => none
            | some tk2 =>
              -- RETURN_IF_FAILED(table->idx < MYTOML_MAX_ARRAY_LENGTH - 1):
              -- `idx` is a `size_t`, compared against 131071
              if tk2.idx < 131071 then
                let newIdx := (tk2.idx + 1) % 18446744073709551616
                let root3 := root2.modifyAt tp (fun n =>
                  let v := (n.value).getD newArrayValue
                  (n.withIdx newIdx).withValue (some (TomlValue.mk v.vtype
                    (arrWrite v.arr newIdx (newTableValue (newKey .TABLE)))
                    v.len v.vdata v.precision v.scientific v.format)))
                some (t2, root3, tp)
              else none
      else
        parseTable fuel t1 root [] true
    else if nw.2.prev = 0 || isNewline nw.2.prev || (isWhitespace nw.2.prev && nw.2.nlFlag) then
      match parseKey fuel nw.2 root keyPath true with
      | none => none
      | some (t1, root1, pk) =>
        match parseValue fuel t1 (strBytes "# \n") with
        | none => none
        | some (v, t2) =>
          if v.vtype = .INLINETABLE then
            match v.vdata with
            | .key h =>
              let root2 := root1.modifyAt pk (fun n => n.withType .KEY)
              match spliceInline fuel root2 pk h.subkeys with
              | none => none
              | some root3 =>
                some (parseWhitespace fuel t2,
                  root3.modifyAt pk (fun n => n.withType .KEYLEAF), keyPath)
            | _ => none
          else
            some (parseWhitespace fuel t2,
              root1.modifyAt pk (fun n => n.withValue (some v)), keyPath)
    else none

/-- The statement loop shared by `tomlLoadFile` / `tomlLoads`
(src/tomlfy.h:3208 and 3264): run `_Mytoml_ParseKeyValue` while the
tokenizer has a token; any failure makes the whole load return NULL. -/
def loadLoop : Nat → Tokenizer → TomlKey → List PathStep → Option TomlKey
  | 0, _, _, _ => none
  | f + 1, t, root, keyPath =>
    if t.hasToken then
      match parseKeyValue (f + 1) t root keyPath with
      | none => none
      | some (t1, root1, p1) => loadLoop f t1 root1 p1
    else some root
termination_by structural f => f

/-- `tomlLoadFile` (src/tomlfy.h:3195) after the I/O:
`_Mytoml_TokenizerLoadInput` terminates the loaded bytes with the
`EOF` sentinel byte (src/tomlfy.h:977: `buffer[size] = EOF`). -/
def tomlLoadFileModel (content : String) : Option TomlKey :=
  let root := newKeyId .TABLE (strBytes "root")
  let tok := (Tokenizer.next (newTokenizer (strBytes content ++ [-1]))).2
  loadLoop ((content.length + 32) * 32) tok root []

/-- `tomlLoads` (src/tomlfy.h:3253): the stream is `strdup(toml)` —
NUL-terminated, with no `EOF` sentinel appended (the function never
calls `_Mytoml_TokenizerLoadInput`).  Reads past the terminating NUL
are undefined behaviour in C; the model extends the stream with
zeros. -/
def tomlLoadsModel (toml : String) : Option TomlKey :=
  let root := newKeyId .TABLE (strBytes "root")
  let tok := (Tokenizer.next (newTokenizer (strBytes toml ++ [0]))).2
  loadLoop ((toml.length + 32) * 32) tok root []

/-! ## Serializer (src/tomlfy.h:3306 onward)

`_Mytoml_AppendToBuffer` grows a byte buffer with the formatted text;
the buffer is modelled as the `String` produced so far, each C append
becoming a string concatenation with the same format expansion. -/

/-- `_Mytoml_StringDump` (src/tomlfy.h:820). -/
def stringDump : List Int → String
  | [] => ""
  | c :: rest =>
    (if c = 8 then "\\b"
     else if c = 10 then "\\n"
     else if c = 13 then "\\r"
     else if c = 9 then "\\t"
     else if c = 12 then "\\f"
     else if c = 92 then "\\\\"
     else if c = 34 then "\\\""
     else String.mk [schrToChar c]) ++ stringDump rest
termination_by structural l => l

/-- `strftime` restricted to the directives occurring in the recorded
formats (`%Y %m %d %H %M %S` and literal text), on the in-range field
values the parser stores. -/
def strftimeM : List Char → Tm → String
  | [], _ => ""
  | '%' :: c :: rest, t =>
    (if c = 'Y' then intStr (t.tm_year + 1900)
     else if c = 'm' then String.mk (natPadDigits 2 (t.tm_mon + 1).toNat)
     else if c = 'd' then String.mk (natPadDigits 2 t.tm_mday.toNat)
     else if c = 'H' then String.mk (natPadDigits 2 t.tm_hour.toNat)
     else if c = 'M' then String.mk (natPadDigits 2 t.tm_min.toNat)
     else if c = 'S' then String.mk (natPadDigits 2 t.tm_sec.toNat)
     else String.mk ['%', c]) ++ strftimeM rest t
  | c :: rest, t => String.mk [c] ++ strftimeM rest t
termination_by structural l => l

/-- `printf("%.0lf", d)` on a possibly non-finite double. -/
def fmtF0 : MDouble → String
  | .fin q => fmtFixed q 0
  | .inf => "inf"
  | .ninf => "-inf"
  | .nan => "nan"

mutual
/-- `tomlValueDumpBuffer` (src/tomlfy.h:3372).  Note two oddities of
the source reproduced here: the `TOML_STRING` case emits no opening
quote before the stringified value, and the `+INFINITY` case appends
`"\x7d` and then `"inf"\x7d`. -/
def valueDump : Nat → TomlValue → String
  | 0, _ => ""
  | f + 1, v =>
    match v.vtype with
    | .STRING =>
      "\x7b\"type\": \"string\", \"value\": " ++
      stringDump (match v.vdata with | .str s => s | _ => []) ++ "\"\x7d"
    | .FLOAT =>
      "\x7b\"type\": \"float\", \"value\": " ++
      (match v.vdata with
       | .num d =>
         match d with
         | .inf => "\"\x7d" ++ "\"inf\"\x7d"
         | .ninf => "\"-inf\"\x7d"
         | .nan => "\"nan\"\x7d"
         | .fin q =>
           if v.scientific then "\"" ++ fmtG q ++ "\"\x7d"
           else if q = 0 then "\"0.0\"\x7d"
           else "\"" ++ fmtFixed q v.precision ++ "\"\x7d"
       | _ => "")
    | .INT =>
      "\x7b\"type\": \"integer\", \"value\": " ++
      (match v.vdata with
       | .num d => "\"" ++ fmtF0 d ++ "\"\x7d"
       | _ => "")
    | .BOOL =>
      "\x7b\"type\": \"bool\", \"value\": " ++
      (match v.vdata with
       | .num d => if d.truthy then "\"true\"\x7d" else "\"false\"\x7d"
       | _ => "")
    | .DATETIME =>
      "\x7b\"type\": \"datetime\", \"value\": " ++
      (match v.vdata with
       | .tmv t => "\"" ++ strftimeM v.format.data t ++ "\"\x7d"
       | _ => "")
    | .DATETIMELOCAL =>
      "\x7b\"type\": \"datetime-local\", \"value\": " ++
      (match v.vdata with
       | .tmv t => "\"" ++ strftimeM v.format.data t ++ "\"\x7d"
       | _ => "")
    | .DATELOCAL =>
      "\x7b\"type\": \"date-local\", \"value\": " ++
      (match v.vdata with
       | .tmv t => "\"" ++ strftimeM v.format.data t ++ "\"\x7d"
       | _ => "")
    | .TIMELOCAL =>
      "\x7b\"type\": \"time-local\", \"value\": " ++
      (match v.vdata with
       | .tmv t => "\"" ++ strftimeM v.format.data t ++ "\"\x7d"
       | _ => "")
    | .ARRAY =>
      "[\n" ++ String.intercalate ",\n" (v.arr.map (valueDump f)) ++ "\n]"
    | .INLINETABLE =>
      "\x7b\n" ++
      (match v.vdata with
       | .key h => String.intercalate ",\n" (h.subkeys.map (keyDump f))
       | _ => "") ++ "\n\x7d"
termination_by structural f => f

/-- `tomlKeyDumpBuffer` (src/tomlfy.h:3322). -/
def keyDump : Nat → TomlKey → String
  | 0, _ => ""
  | f + 1, k =>
    if k.ktype = .KEYLEAF && k.value.isSome &&
        (match k.value with | some v => v.vtype ≠ .INLINETABLE | none => false) then
      "\"" ++ stringDump k.kid ++ "\": " ++ valueDump f ((k.value).getD newArrayValue)
    else if k.ktype = .ARRAYTABLE then
      "\"" ++ stringDump k.kid ++ "\": [\n" ++
      String.intercalate ",\n"
        ((((k.value).getD newArrayValue).arr.take (k.idx + 1)).map (valueDump f)) ++
      "\n]"
    else
      "\"" ++ stringDump k.kid ++ "\": \x7b\n" ++
      String.intercalate ",\n" (k.subkeys.map (keyDump f)) ++ "\n\x7d"
termination_by structural f => f
end

/-- `tomlKeyDumps` (src/tomlfy.h:3306). -/
def tomlKeyDumpsModel (k : TomlKey) : String := keyDump 1000 k

/-- `tomlValueDumps` (src/tomlfy.h:3314). -/
def tomlValueDumpsModel (v : TomlValue) : String := valueDump 1000 v

/-! ## Observers used by the theorems (not part of the source). -/

/-- The direct child with the given identifier. -/
def TomlKey.child (k : TomlKey) (id : String) : Option TomlKey :=
  k.subkeys.find? (fun s => s.kid == strBytes id)

/-- The stored string payload of a key's value. -/
def TomlKey.strValue (k : TomlKey) : Option (List Int) :=
  match k.value with
  | some v => match v.vdata with | .str s => some s | _ => none
  | none => none

/-- The stored numeric payload of a key's value:
(value, type, precision, scientific). -/
def TomlKey.numValue (k : TomlKey) : Option (MDouble × TomlValueType × Nat × Bool) :=
  match k.value with
  | some v => match v.vdata with | .num d => some (d, v.vtype, v.precision, v.scientific) | _ => none
  | none => none

/-! ## Spec-side definitions

These are written from the specification's words, to be compared with
the embedded code. -/

/-- The redefinition matrix exactly as claim C1 states it: Key admits
Key and Table; Table admits Key, Table and TableLeaf; KeyLeaf admits
nothing; TableLeaf admits Key and Table but not TableLeaf; ArrayTable
admits Table and ArrayTable; every other pair is denied. -/
def specMatrixC1 : TomlKeyType → TomlKeyType → Bool
  | .KEY, .KEY => true
  | .KEY, .TABLE => true
  | .TABLE, .KEY => true
  | .TABLE, .TABLE => true
  | .TABLE, .TABLELEAF => true
  | .TABLELEAF, .KEY => true
  | .TABLELEAF, .TABLE => true
  | .ARRAYTABLE, .TABLE => true
  | .ARRAYTABLE, .ARRAYTABLE => true
  | _, _ => false

/-- The matrix the code actually implements (the amendment of C1):
the two `Key`-redefinition cells of the existing `Table` and
`TableLeaf` rows are denied. -/
def amendedMatrixC1 : TomlKeyType → TomlKeyType → Bool
  | .KEY, .KEY => true
  | .KEY, .TABLE => true
  | .TABLE, .TABLE => true
  | .TABLE, .TABLELEAF => true
  | .TABLELEAF, .TABLE => true
  | .ARRAYTABLE, .TABLE => true
  | .ARRAYTABLE, .ARRAYTABLE => true
  | _, _ => false

/-- The spec's leap-year rule: divisible by 4, excluding century years
not divisible by 400 (C `%` on `int` is `Int.tmod`). -/
def specLeap (y : Int) : Prop :=
  y.tmod 4 = 0 ∧ (y.tmod 100 ≠ 0 ∨ y.tmod 400 = 0)

/-- The spec's month-length table (month is 1-based); 0 for an invalid
month, so no day passes. -/
def specMonthLen (y m : Int) : Int :=
  if m = 1 then 31
  else if m = 2 then (if y.tmod 4 = 0 ∧ (y.tmod 100 ≠ 0 ∨ y.tmod 400 = 0) then 29 else 28)
  else if m = 3 then 31
  else if m = 4 then 30
  else if m = 5 then 31
  else if m = 6 then 30
  else if m = 7 then 31
  else if m = 8 then 31
  else if m = 9 then 30
  else if m = 10 then 31
  else if m = 11 then 30
  else if m = 12 then 31
  else 0

/-- A real calendar date per the spec (1-based month). -/
def specRealDate (y m d : Int) : Prop :=
  1 ≤ d ∧ d ≤ specMonthLen y m

/-- The spec's requirements on a broken-down time: real date,
hour 0-23, minute and second 0-59. -/
def specValidTm (t : Tm) : Prop :=
  0 ≤ t.tm_hour ∧ t.tm_hour ≤ 23 ∧
  0 ≤ t.tm_min ∧ t.tm_min ≤ 59 ∧
  0 ≤ t.tm_sec ∧ t.tm_sec ≤ 59 ∧
  specRealDate (t.tm_year + 1900) (t.tm_mon + 1) t.tm_mday

/-- The canonical UTF-8 encoding of a Unicode scalar (spec side). -/
def utf8Canonical (n : Nat) : List Nat :=
  if n ≤ 127 then [n]
  else if n ≤ 2047 then [192 + n / 64, 128 + n % 64]
  else if n ≤ 65535 then [224 + n / 4096, 128 + (n / 64) % 64, 128 + n % 64]
  else [240 + n / 262144, 128 + (n / 4096) % 64, 128 + (n / 64) % 64, 128 + n % 64]

/-- Digits after the (last) decimal point of a rendered number. -/
def fracDigitsStr (s : String) : Nat :=
  if s.data.contains '.' then (s.data.reverse.takeWhile (fun c => c ≠ '.')).length
  else 0

/-- A two-level tree used by the C1 amendment: a root whose child `a`
is a `TABLE` (as after parsing `[a.b]`). -/
def c1Root : TomlKey :=
  .mk .TABLE (strBytes "root") [.mk .TABLE (strBytes "a") [] none 18446744073709551615]
    none 18446744073709551615


/-- A tokenizer freshly advanced onto the first byte of `s` (the `EOF`
sentinel appended), as the parsing helpers receive it. -/
def tokOn (s : String) : Tokenizer :=
  ((newTokenizer (strBytes s ++ [-1])).next).2

/-- A concrete `_Mytoml_ParseDatetime` run on the value `07:32:00`. -/
def c7res : Option (DatetimeR × Tokenizer) :=
  parseDatetime 64 (tokOn "07:32:00\n") [] [10] 0 {}

/-- The broken-down time `07:32:00` of day 1-Jan-1900 as the parser
stores it. -/
def c7tm : Tm :=
  { tm_sec := 0, tm_min := 32, tm_hour := 7, tm_mday := 1, tm_mon := 0, tm_year := 0 }

/-! ## Supporting lemmas -/

theorem guard_some {p : Prop} [Decidable p] {u : Unit}
    (h : (if p then (pure () : Option Unit) else failure) = some u) : p := by
  split at h
  · assumption
  · exact Option.noConfusion h

set_option maxHeartbeats 1600000 in
theorem isDate_iff (y m d : Int) : isDate y m d = true ↔ specRealDate y (m + 1) d := by
  unfold isDate specRealDate specMonthLen
  by_cases h0 : m = 0
  · subst h0; norm_num
  by_cases h1 : m = 1
  · subst h1
    norm_num
    split_ifs <;> omega
  by_cases h2 : m = 2
  · subst h2; norm_num
  by_cases h3 : m = 3
  · subst h3; norm_num
  by_cases h4 : m = 4
  · subst h4; norm_num
  by_cases h5 : m = 5
  · subst h5; norm_num
  by_cases h6 : m = 6
  · subst h6; norm_num
  by_cases h7 : m = 7
  · subst h7; norm_num
  by_cases h8 : m = 8
  · subst h8; norm_num
  by_cases h9 : m = 9
  · subst h9; norm_num
  by_cases h10 : m = 10
  · subst h10; norm_num
  by_cases h11 : m = 11
  · subst h11; norm_num
  · rw [if_neg h0, if_neg h1, if_neg h2, if_neg h3, if_neg h4, if_neg h5, if_neg h6,
      if_neg h7, if_neg h8, if_neg h9, if_neg h10, if_neg h11,
      if_neg (show ¬(m + 1 = 1) from by omega), if_neg (show ¬(m + 1 = 2) from by omega),
      if_neg (show ¬(m + 1 = 3) from by omega), if_neg (show ¬(m + 1 = 4) from by omega),
      if_neg (show ¬(m + 1 = 5) from by omega), if_neg (show ¬(m + 1 = 6) from by omega),
      if_neg (show ¬(m + 1 = 7) from by omega), if_neg (show ¬(m + 1 = 8) from by omega),
      if_neg (show ¬(m + 1 = 9) from by omega), if_neg (show ¬(m + 1 = 10) from by omega),
      if_neg (show ¬(m + 1 = 11) from by omega), if_neg (show ¬(m + 1 = 12) from by omega)]
    simp
    omega

theorem isValidDatetime_iff (t : Tm) : isValidDatetime t = true ↔ specValidTm t := by
  simp only [isValidDatetime, specValidTm, Bool.and_eq_true, decide_eq_true_eq, isDate_iff]
  constructor
  · rintro ⟨⟨⟨⟨h1, h2⟩, h3, h4⟩, h5, h6⟩, h7⟩
    exact ⟨h1, h2, h3, h4, h5, h6, h7⟩
  · rintro ⟨h1, h2, h3, h4, h5, h6, h7⟩
    exact ⟨⟨⟨⟨h1, h2⟩, h3, h4⟩, h5, h6⟩, h7⟩

theorem checkOffsetPair_le (offH offM : List Int) (oh om : Nat)
    (h : checkOffsetPair offH offM = some (oh, om)) : oh ≤ 23 ∧ om ≤ 59 := by
  unfold checkOffsetPair at h
  cases hH : checkDTField offH 2 with
  | none => rw [hH] at h; simp at h
  | some n =>
    rw [hH] at h
    simp only [Option.bind_eq_bind, Option.some_bind] at h
    split at h
    · cases hM : checkDTField offM 2 with
      | none => rw [hM] at h; simp at h
      | some k =>
        rw [hM] at h
        simp only [Option.some_bind] at h
        split at h
        · simp only [Option.some.injEq, Prod.mk.injEq] at h
          omega
        · simp at h
    · simp at h

theorem tryPat1_valid (v : List Int) (s : Nat) (t0 : Tm) (dt : DatetimeR)
    (h : tryPat1 v s t0 = some (some dt)) : isValidDatetime dt.tm = true := by
  unfold tryPat1 at h
  repeat' split at h
  any_goals exact Option.noConfusion h
  all_goals
    (simp only [Option.some.injEq] at h;
     simp only [Option.bind_eq_bind, Option.bind_eq_some, guard, Option.ite_none_right_eq_some,
       Option.some.injEq] at h;
     obtain ⟨u1, hg1, u2, hg2, u3, hg3, u4, hg4, t1, hT1, t2, hT2, u5, hg5, p1, hP, m1, hM, u6, hg6, u7, hg7, hdt⟩ := h;
     subst hdt;
     exact guard_some hg5)

theorem tryPat2_valid (v : List Int) (s : Nat) (t0 : Tm) (dt : DatetimeR)
    (h : tryPat2 v s t0 = some (some dt)) : isValidDatetime dt.tm = true := by
  unfold tryPat2 at h
  repeat' split at h
  any_goals exact Option.noConfusion h
  all_goals
    (simp only [Option.some.injEq] at h;
     simp only [Option.bind_eq_bind, Option.bind_eq_some, guard, Option.ite_none_right_eq_some,
       Option.some.injEq] at h;
     obtain ⟨u1, hg1, u2, hg2, u3, hg3, u4, hg4, t1, hT1, t2, hT2, u5, hg5, p1, hP, u6, hg6, u7, hg7, hdt⟩ := h;
     subst hdt;
     exact guard_some hg5)

theorem tryPat3_valid (v : List Int) (s : Nat) (t0 : Tm) (dt : DatetimeR)
    (h : tryPat3 v s t0 = some (some dt)) : isValidDatetime dt.tm = true := by
  unfold tryPat3 at h
  repeat' split at h
  any_goals exact Option.noConfusion h
  all_goals
    (simp only [Option.some.injEq] at h;
     simp only [Option.bind_eq_bind, Option.bind_eq_some, guard, Option.ite_none_right_eq_some,
       Option.some.injEq] at h;
     obtain ⟨u1, hg1, u2, hg2, u3, hg3, u4, hg4, t1, hT1, t2, hT2, u5, hg5, m1, hM, u6, hg6, u7, hg7, hdt⟩ := h;
     subst hdt;
     exact guard_some hg5)

theorem tryPat4_valid (v : List Int) (s : Nat) (t0 : Tm) (dt : DatetimeR)
    (h : tryPat4 v s t0 = some (some dt)) : isValidDatetime dt.tm = true := by
  unfold tryPat4 at h
  repeat' split at h
  any_goals exact Option.noConfusion h
  all_goals
    (simp only [Option.some.injEq] at h;
     simp only [Option.bind_eq_bind, Option.bind_eq_some, guard, Option.ite_none_right_eq_some,
       Option.some.injEq] at h;
     obtain ⟨u1, hg1, u2, hg2, t1, hT1, t2, hT2, u3, hg3, m1, hM, u4, hg4, u5, hg5, hdt⟩ := h;
     subst hdt;
     exact guard_some hg3)

theorem tryPat5_valid (v : List Int) (s : Nat) (t0 : Tm) (dt : DatetimeR)
    (h : tryPat5 v s t0 = some (some dt)) : isValidDatetime dt.tm = true := by
  unfold tryPat5 at h
  repeat' split at h
  any_goals exact Option.noConfusion h
  all_goals
    (simp only [Option.some.injEq] at h;
     simp only [Option.bind_eq_bind, Option.bind_eq_some, guard, Option.ite_none_right_eq_some,
       Option.some.injEq] at h;
     obtain ⟨u1, hg1, u2, hg2, u3, hg3, u4, hg4, t1, hT1, t2, hT2, u5, hg5, u6, hg6, u7, hg7, hdt⟩ := h;
     subst hdt;
     exact guard_some hg5)

theorem tryPat6_valid (v : List Int) (s : Nat) (t0 : Tm) (dt : DatetimeR)
    (h : tryPat6 v s t0 = some (some dt)) : isValidDatetime dt.tm = true := by
  unfold tryPat6 at h
  repeat' split at h
  any_goals exact Option.noConfusion h
  all_goals
    (simp only [Option.some.injEq] at h;
     simp only [Option.bind_eq_bind, Option.bind_eq_some, guard, Option.ite_none_right_eq_some,
       Option.some.injEq] at h;
     obtain ⟨u1, hg1, u2, hg2, t1, hT1, t2, hT2, u3, hg3, u4, hg4, u5, hg5, hdt⟩ := h;
     subst hdt;
     exact guard_some hg3)

theorem tryPat7_valid (v : List Int) (s : Nat) (t0 : Tm) (dt : DatetimeR)
    (h : tryPat7 v s t0 = some (some dt)) : isValidDatetime dt.tm = true := by
  unfold tryPat7 at h
  repeat' split at h
  any_goals exact Option.noConfusion h
  all_goals
    (simp only [Option.some.injEq] at h;
     simp only [Option.bind_eq_bind, Option.bind_eq_some, guard, Option.ite_none_right_eq_some,
       Option.some.injEq] at h;
     obtain ⟨t1, hT1, u1, hg1, u2, hg2, u3, hg3, hdt⟩ := h;
     subst hdt;
     exact guard_some hg1)

theorem tryPat8_valid (v : List Int) (s : Nat) (t0 : Tm) (dt : DatetimeR)
    (h : tryPat8 v s t0 = some (some dt)) : isValidDatetime dt.tm = true := by
  unfold tryPat8 at h
  repeat' split at h
  any_goals exact Option.noConfusion h
  all_goals
    (simp only [Option.some.injEq] at h;
     simp only [Option.bind_eq_bind, Option.bind_eq_some, guard, Option.ite_none_right_eq_some,
       Option.some.injEq] at h;
     obtain ⟨t1, hT1, u1, hg1, m1, hM, u2, hg2, u3, hg3, hdt⟩ := h;
     subst hdt;
     exact guard_some hg1)

theorem tryPat9_valid (v : List Int) (s : Nat) (t0 : Tm) (dt : DatetimeR)
    (h : tryPat9 v s t0 = some (some dt)) : isValidDatetime dt.tm = true := by
  unfold tryPat9 at h
  repeat' split at h
  any_goals exact Option.noConfusion h
  all_goals
    (simp only [Option.some.injEq] at h;
     simp only [Option.bind_eq_bind, Option.bind_eq_some, guard, Option.ite_none_right_eq_some,
       Option.some.injEq] at h;
     obtain ⟨t1, hT1, u1, hg1, u2, hg2, u3, hg3, hdt⟩ := h;
     subst hdt;
     exact guard_some hg1)

theorem tryPatterns_valid (v : List Int) (s : Nat) (t0 : Tm) (dt : DatetimeR)
    (h : tryPatterns v s t0 = some dt) : isValidDatetime dt.tm = true := by
  unfold tryPatterns at h
  split at h
  · exact tryPat1_valid v s t0 dt (by rename_i heq; rw [heq, h])
  split at h
  · exact tryPat2_valid v s t0 dt (by rename_i heq; rw [heq, h])
  split at h
  · exact tryPat3_valid v s t0 dt (by rename_i heq; rw [heq, h])
  split at h
  · exact tryPat4_valid v s t0 dt (by rename_i heq; rw [heq, h])
  split at h
  · exact tryPat5_valid v s t0 dt (by rename_i heq; rw [heq, h])
  split at h
  · exact tryPat6_valid v s t0 dt (by rename_i heq; rw [heq, h])
  split at h
  · exact tryPat7_valid v s t0 dt (by rename_i heq; rw [heq, h])
  split at h
  · exact tryPat8_valid v s t0 dt (by rename_i heq; rw [heq, h])
  split at h
  · exact tryPat9_valid v s t0 dt (by rename_i heq; rw [heq, h])
  exact Option.noConfusion h

theorem parseDatetime_valid : ∀ (f : Nat) (t : Tokenizer) (value numEnd : List Int)
    (spaces : Nat) (tm : Tm) (r : DatetimeR × Tokenizer),
    parseDatetime f t value numEnd spaces tm = some r → isValidDatetime r.1.tm = true := by
  intro f
  induction f with
  | zero => intro t v ne sp tm r h; exact Option.noConfusion h
  | succ f ih =>
    intro t v ne sp tm r h
    unfold parseDatetime at h
    split at h
    · split at h
      · exact Option.noConfusion h
      · split at h
        · split at h
          · rename_i heq
            simp only [Option.some.injEq] at h
            subst h
            exact tryPatterns_valid _ _ _ _ heq
          · exact Option.noConfusion h
        · exact ih _ _ _ _ _ _ h
    · exact Option.noConfusion h

theorem natDigitsAux_digits : ∀ f n c, c ∈ natDigitsAux f n → ∃ d, c = digCh d := by
  intro f
  induction f with
  | zero => intro n c h; simp [natDigitsAux] at h
  | succ f ih =>
    intro n c h
    simp only [natDigitsAux] at h
    split at h
    · simp at h; exact ⟨n, h⟩
    · rcases List.mem_append.mp h with h1 | h2
      · exact ih _ _ h1
      · simp at h2; exact ⟨n % 10, h2⟩

theorem digCh_ne_dot (d : Nat) : digCh d ≠ Char.ofNat 46 := by
  unfold digCh
  have h : d % 10 < 10 := Nat.mod_lt _ (by omega)
  set m := d % 10 with hm
  interval_cases m <;> decide

theorem natDigits_ne_dot (n : Nat) : ∀ c ∈ natDigits n, c ≠ Char.ofNat 46 := by
  intro c hc
  obtain ⟨d, hd⟩ := natDigitsAux_digits _ _ _ hc
  subst hd
  exact digCh_ne_dot d

theorem natPadDigits_ne_dot (p n : Nat) : ∀ c ∈ natPadDigits p n, c ≠ Char.ofNat 46 := by
  intro c hc
  unfold natPadDigits at hc
  have h1 : c ∈ ((List.replicate p (Char.ofNat 48) ++ natDigits n).reverse.take p) :=
    List.mem_reverse.mp hc
  have h2 : c ∈ (List.replicate p (Char.ofNat 48) ++ natDigits n).reverse :=
    List.mem_of_mem_take h1
  have h3 : c ∈ List.replicate p (Char.ofNat 48) ++ natDigits n := List.mem_reverse.mp h2
  rcases List.mem_append.mp h3 with h4 | h5
  · have := List.eq_of_mem_replicate h4; subst this; decide
  · exact natDigits_ne_dot n c h5

theorem natPadDigits_length (p n : Nat) : (natPadDigits p n).length = p := by
  unfold natPadDigits
  simp [List.length_take, List.length_append, List.length_reverse]

theorem takeWhile_stop (p : Char → Bool) : ∀ (l1 : List Char), (∀ c ∈ l1, p c = true) →
    ∀ x l2, p x = false → (l1 ++ x :: l2).takeWhile p = l1 := by
  intro l1
  induction l1 with
  | nil => intro _ x l2 hx; simp [List.takeWhile_cons, hx]
  | cons a t ih =>
    intro h x l2 hx
    simp only [List.cons_append, List.takeWhile_cons, h a (by simp)]
    rw [if_pos trivial]
    exact congrArg (List.cons a) (ih (fun c hc => h c (by simp [hc])) x l2 hx)

theorem fracDigitsStr_concat (a : String) (fr : List Char)
    (h : ∀ c ∈ fr, c ≠ Char.ofNat 46) :
    fracDigitsStr (a ++ "." ++ String.mk fr) = fr.length := by
  unfold fracDigitsStr
  have hdata : (a ++ "." ++ String.mk fr).data = a.data ++ Char.ofNat 46 :: fr := by
    simp [String.data_append]
  rw [hdata]
  have hrev : (a.data ++ Char.ofNat 46 :: fr).reverse =
      fr.reverse ++ Char.ofNat 46 :: a.data.reverse := by
    simp [List.reverse_append]
  rw [hrev]
  have hcontains : (a.data ++ Char.ofNat 46 :: fr).contains (Char.ofNat 46) = true := by
    simp [List.contains]
  rw [if_pos ?_]
  · rw [takeWhile_stop _ fr.reverse
      (fun c hc => by
        have := h c (List.mem_reverse.mp hc)
        simp [this])
      _ _ (by simp)]
    simp
  · exact hcontains

theorem no_dot_fracDigits (s : String) (h : ∀ c ∈ s.data, c ≠ Char.ofNat 46) :
    fracDigitsStr s = 0 := by
  unfold fracDigitsStr
  rw [if_neg]
  intro hc
  have : Char.ofNat 46 ∈ s.data := by
    simpa [List.contains] using hc
  exact h _ this rfl

theorem fracDigitsStr_fmtFixed_all (q : Rat) (p : Nat) :
    fracDigitsStr (fmtFixed q p) = p := by
  cases p with
  | zero =>
    apply no_dot_fracDigits
    intro c hc
    unfold fmtFixed at hc
    rw [if_pos rfl] at hc
    simp only [String.data_append] at hc
    rcases List.mem_append.mp hc with h1 | h2
    · split at h1
      · simp at h1; subst h1; decide
      · simp at h1
    · exact natDigits_ne_dot _ c h2
  | succ p =>
    unfold fmtFixed
    rw [if_neg (by omega)]
    rw [fracDigitsStr_concat _ _ (natPadDigits_ne_dot _ _)]
    exact natPadDigits_length _ _

/-! ## Claim theorems -/

/-- C1, counterexample: the claim says the matrix admits
(existing Table, new Key) and (existing TableLeaf, new Key), but
`_Mytoml_CompatibleKeys` denies both. -/
theorem c1_counterexample :
    compatibleKeys .TABLE .KEY ≠ specMatrixC1 .TABLE .KEY ∧
    compatibleKeys .TABLELEAF .KEY ≠ specMatrixC1 .TABLELEAF .KEY := by
  decide

/-- C1 (amended): `_Mytoml_CompatibleKeys` realizes the matrix in
which Key admits Key and Table; Table admits Table and TableLeaf (but
not Key); KeyLeaf admits nothing; TableLeaf admits Table only;
ArrayTable admits Table and ArrayTable; every other pair is denied.
The Table-to-TableLeaf transition mutates the existing node's kind in
`_Mytoml_AddSubKey` and is allowed only once: on `c1Root` (child `a`
of kind Table) the first TableLeaf redefinition succeeds and rewrites
the kind, the second is rejected. -/
theorem c1_amended_matrix :
    (∀ e c, compatibleKeys e c = amendedMatrixC1 e c) ∧
    ((addSubKeyAt 9 c1Root [] (newKeyId .TABLELEAF (strBytes "a"))).map
      (fun r => (r.1.child "a").map TomlKey.ktype) = some (some .TABLELEAF)) ∧
    ((addSubKeyAt 9 c1Root [] (newKeyId .TABLELEAF (strBytes "a"))).bind
      (fun r => addSubKeyAt 9 r.1 [] (newKeyId .TABLELEAF (strBytes "a")))).isNone = true := by
  refine ⟨fun e c => ?_, by decide, by decide⟩
  cases e <;> cases c <;> rfl

/-- C1 witness: the amended matrix theorem applied at a concrete pair. -/
theorem c1_witness :
    compatibleKeys .KEY .TABLE = amendedMatrixC1 .KEY .TABLE :=
  c1_amended_matrix.1 .KEY .TABLE

/-- C2: the document `[[t]]\nx=1\n[[t]]\nx=2\n` is rejected by both
load paths, because `TomlKey.idx` is a `size_t` initialized to `-1`
(`SIZE_MAX`), so the guard `table->idx < MYTOML_MAX_ARRAY_LENGTH - 1`
in `_Mytoml_ParseKeyValue` fails at the very first `[[t]]`. -/
theorem c2_arraytable_rejected :
    (tomlLoadFileModel "[[t]]\nx=1\n[[t]]\nx=2\n").isNone = true ∧
    (tomlLoadsModel "[[t]]\nx=1\n[[t]]\nx=2\n").isNone = true ∧
    (newKey .ARRAYTABLE).idx = 18446744073709551615 ∧
    ¬ (newKey .ARRAYTABLE).idx < 131071 := by
  decide

/-- C8: the string entry point `tomlLoads` never appends the `EOF`
sentinel that `tomlLoadFile` appends, so the terminating NUL of the
`strdup`ed stream is reached as an ordinary character, fails
`_Mytoml_ParserBareKey`, and the load returns NULL — even for the
well-formed document `x = 1\n` (and even for the empty document),
while the file path parses the same bytes successfully. -/
theorem c8_loads_always_null :
    (tomlLoadsModel "x = 1\n").isNone = true ∧
    (tomlLoadsModel "").isNone = true ∧
    (tomlLoadFileModel "x = 1\n").isSome = true ∧
    ((tomlLoadFileModel "x = 1\n").bind
      (fun r => (r.child "x").bind TomlKey.numValue)) = some (.fin 1, .INT, 0, false) ∧
    (tomlLoadFileModel "").isSome = true := by
  decide

/-- C9: the empty inline table is accepted.  Through the full pipeline
`e = \x7b\x7d` yields key `e` (locked as `KEYLEAF` by the splice) with
zero subkeys, also with interior whitespace; `_Mytoml_ParseInlineTable`
itself returns a table key with zero subkeys for `\x7b\x7d`; and once
a pair has been parsed the trailing-separator check fires again
(`\x7ba = 1,\x7d` is rejected). -/
theorem c9_empty_inline_table :
    ((tomlLoadFileModel "e = \x7b\x7d\n").bind (fun r => (r.child "e").map
      (fun k => (k.ktype, k.subkeys.length, k.value.isNone)))) =
        some (.KEYLEAF, 0, true) ∧
    ((tomlLoadFileModel "e = \x7b \x7d\n").bind (fun r => (r.child "e").map
      (fun k => (k.ktype, k.subkeys.length, k.value.isNone)))) =
        some (.KEYLEAF, 0, true) ∧
    ((parseInlineTable 64
        ((Tokenizer.next (Tokenizer.next (newTokenizer (strBytes "\x7b\x7d" ++ [-1]))).2).2)
        (newKey .TABLE) true true).map
      (fun r => (r.1.ktype, r.1.subkeys.length))) = some (.TABLE, 0) ∧
    (tomlLoadFileModel "e = \x7ba = 1,\x7d\n").isNone = true := by
  decide

/-- C3: `_Mytoml_ParseUnicode` writes the canonical UTF-8 encoding for
scalars 0 and 128-0x10FFFF of the accepted range, but the `num <= 0x0`
comparison (src/tomlfy.h:2665) sends every scalar in [0x1, 0x7F] to
the four-byte branch: `A` (`A`) is emitted as the overlong
sequence `F0 80 81 81`, not the single byte `0x41`; scalars outside
`[0x0, 0xD7FF] ∪ [0xE000, 0x10FFFF]` are rejected. -/
theorem c3_unicode_overlong :
    (parseUnicode 16 (tokOn "0041\"") [] 0 64).1 = (4, [-16, -128, -127, -127]) ∧
    utf8Canonical 65 = [65] ∧
    (parseUnicode 16 (tokOn "0041\"") [] 0 64).1.2 ≠ (utf8Canonical 65).map toSChar ∧
    encodeUnicodeBytes 0 64 = some ((utf8Canonical 0).map toSChar) ∧
    encodeUnicodeBytes 233 64 = some ((utf8Canonical 233).map toSChar) ∧
    encodeUnicodeBytes 2048 64 = some ((utf8Canonical 2048).map toSChar) ∧
    encodeUnicodeBytes 55295 64 = some ((utf8Canonical 55295).map toSChar) ∧
    encodeUnicodeBytes 57344 64 = some ((utf8Canonical 57344).map toSChar) ∧
    encodeUnicodeBytes 128512 64 = some ((utf8Canonical 128512).map toSChar) ∧
    encodeUnicodeBytes 1114111 64 = some ((utf8Canonical 1114111).map toSChar) ∧
    (parseUnicode 16 (tokOn "D800\"") [] 0 64).1 = (0, []) ∧
    (parseUnicode 16 (tokOn "00110000\"") [] 0 64).1 = (0, []) := by
  decide

/-- C4: `title = "TOML Example"` parses to a `KEYLEAF` holding the
string, but `tomlValueDumpBuffer` emits no opening quote before the
stringified value (src/tomlfy.h:3376-3381), so the serialized child is
`"title": \x7b"type": "string", "value": TOML Example"\x7d` and not
the claimed text with the value enclosed in quotes on both sides. -/
theorem c4_string_dump_missing_quote :
    ((tomlLoadFileModel "title = \"TOML Example\"\n").bind
      (fun r => (r.child "title").map (fun k =>
        (k.ktype, k.strValue, (k.value).map TomlValue.vtype)))) =
      some (.KEYLEAF, some (strBytes "TOML Example"), some .STRING) ∧
    ((tomlLoadFileModel "title = \"TOML Example\"\n").bind
      (fun r => (r.child "title").map tomlKeyDumpsModel)) =
      some "\"title\": \x7b\"type\": \"string\", \"value\": TOML Example\"\x7d" ∧
    "\"title\": \x7b\"type\": \"string\", \"value\": TOML Example\"\x7d" ≠
      "\"title\": \x7b\"type\": \"string\", \"value\": \"TOML Example\"\x7d" := by
  decide

/-- C5, counterexample: `z = 0.00` stores Float(0, precision 2,
scientific false), but the serializer special-cases a zero float to
the fixed text `0.0` (src/tomlfy.h:3404-3406), which has one digit
after the decimal point, not two. -/
theorem c5_counterexample :
    ((tomlLoadFileModel "z = 0.00\n").bind
      (fun r => (r.child "z").bind TomlKey.numValue)) = some (.fin 0, .FLOAT, 2, false) ∧
    ((tomlLoadFileModel "z = 0.00\n").bind
      (fun r => (r.child "z").bind (fun k => (k.value).map tomlValueDumpsModel))) =
      some "\x7b\"type\": \"float\", \"value\": \"0.0\"\x7d" ∧
    fracDigitsStr "0.0" = 1 ∧ (1 : Nat) ≠ 2 := by
  decide

/-- C5 (amended): for a float stored with scientific = false and a
finite nonzero value, the serialized value string is `%.*lf` at the
stored precision and has exactly `precision` digits after the decimal
point; the zero float instead always serializes as `0.0`. -/
theorem c5_amended (v : TomlValue) (q : Rat) (hty : v.vtype = .FLOAT)
    (hd : v.vdata = .num (.fin q)) (hs : v.scientific = false) (hq : q ≠ 0) :
    tomlValueDumpsModel v =
      "\x7b\"type\": \"float\", \"value\": " ++ ("\"" ++ fmtFixed q v.precision ++ "\"\x7d") ∧
    fracDigitsStr (fmtFixed q v.precision) = v.precision := by
  refine ⟨?_, fracDigitsStr_fmtFixed_all q v.precision⟩
  cases v with
  | mk ty arr len data prec sci fmt =>
    cases hty
    cases hd
    cases hs
    show valueDump 1000 _ = _
    rw [show (1000 : Nat) = 999 + 1 from rfl]
    unfold valueDump
    dsimp only [TomlValue.vtype, TomlValue.vdata, TomlValue.scientific, TomlValue.precision]
    rw [if_neg hq, if_neg (by simp : ¬false = true)]

/-- C5 witness: the amended statement applied to Float(3.14,
precision 2, scientific false). -/
theorem c5_witness :
    tomlValueDumpsModel (TomlValue.mk .FLOAT [] 0 (.num (.fin (mkRat 157 50))) 2 false "") =
      "\x7b\"type\": \"float\", \"value\": " ++ ("\"" ++ fmtFixed (mkRat 157 50) 2 ++ "\"\x7d") ∧
    fracDigitsStr (fmtFixed (mkRat 157 50) 2) = 2 :=
  c5_amended (TomlValue.mk .FLOAT [] 0 (.num (.fin (mkRat 157 50))) 2 false "")
    (mkRat 157 50) rfl rfl rfl (by decide)

/-- C6, counterexample: `g = 5e2` is stored scientific and serialized
through `%g`, which renders 500 as `500`, not the claimed `5e+02`. -/
theorem c6_counterexample :
    ((tomlLoadFileModel "f = 3.14\ng = 5e2\n").bind
      (fun r => (r.child "g").bind (fun k => (k.value).map tomlValueDumpsModel))) =
      some "\x7b\"type\": \"float\", \"value\": \"500\"\x7d" ∧
    "\x7b\"type\": \"float\", \"value\": \"500\"\x7d" ≠
      "\x7b\"type\": \"float\", \"value\": \"5e+02\"\x7d" := by
  decide

/-- C6 (amended): `f = 3.14\ng = 5e2` parses to f = Float(3.14,
precision 2, scientific false) and g = Float(500, precision 0,
scientific true); their serialized value strings are `3.14` and `500`
(the `%g` rendering of 500). -/
theorem c6_amended :
    ((tomlLoadFileModel "f = 3.14\ng = 5e2\n").bind
      (fun r => (r.child "f").bind TomlKey.numValue)) =
        some (.fin (mkRat 157 50), .FLOAT, 2, false) ∧
    ((tomlLoadFileModel "f = 3.14\ng = 5e2\n").bind
      (fun r => (r.child "g").bind TomlKey.numValue)) =
        some (.fin 500, .FLOAT, 0, true) ∧
    ((tomlLoadFileModel "f = 3.14\ng = 5e2\n").bind
      (fun r => (r.child "f").bind (fun k => (k.value).map tomlValueDumpsModel))) =
        some "\x7b\"type\": \"float\", \"value\": \"3.14\"\x7d" ∧
    ((tomlLoadFileModel "f = 3.14\ng = 5e2\n").bind
      (fun r => (r.child "g").bind (fun k => (k.value).map tomlValueDumpsModel))) =
        some "\x7b\"type\": \"float\", \"value\": \"500\"\x7d" := by
  decide

/-- C7: the validity predicate `_Mytoml_IsValidDatetime` holds exactly
when the date is a real calendar date per the month-length table with
the leap-year rule and the time fields are in range (hour 0-23,
minute/second 0-59); an accepted timezone offset satisfies hour <= 23
and minute <= 59; and every datetime `_Mytoml_ParseDatetime` accepts
satisfies the spec predicate, so a violating datetime is rejected. -/
theorem c7_datetime_validation :
    (∀ t : Tm, isValidDatetime t = true ↔ specValidTm t) ∧
    (∀ offH offM : List Int, ∀ oh om : Nat,
      checkOffsetPair offH offM = some (oh, om) → oh ≤ 23 ∧ om ≤ 59) ∧
    (∀ (f : Nat) (tk : Tokenizer) (value numEnd : List Int) (spaces : Nat) (tm : Tm)
      (r : DatetimeR × Tokenizer),
      parseDatetime f tk value numEnd spaces tm = some r → specValidTm r.1.tm) :=
  ⟨isValidDatetime_iff, checkOffsetPair_le,
   fun f tk v ne sp tm r h =>
     (isValidDatetime_iff r.1.tm).mp (parseDatetime_valid f tk v ne sp tm r h)⟩

/-- C7 witness: the accepted local time `07:32:00` satisfies the spec
predicate, by the theorem applied to its concrete parse. -/
theorem c7_witness : specValidTm c7tm := by
  have hs : c7res.isSome = true := by decide
  exact c7_datetime_validation.2.2 64 (tokOn "07:32:00\n") [] [10] 0 {}
    (c7res.get hs) (Option.some_get hs).symm

/-- C10, counterexample: a lone carriage return inside a comment in
the first bytes of the input is not rejected: the backtrack guard
`cursor > count + 2` (src/tomlfy.h:921) fails near the stream start,
so the `\r` of `#\rx` is silently skipped and the document loads. -/
theorem c10_counterexample :
    (tomlLoadFileModel "#\rx\n").isSome = true := by
  decide

/-- C10 (amended): on a live tokenizer `_Mytoml_ParseNewline` returns
true exactly for `\n` or `\r` followed by `\n`; `\r` is an
`_Mytoml_Iscontrol` character; and a lone `\r` in a comment or a
single-line basic string is rejected when it sits deep enough in the
stream for the backtrack to restore it (unlike `#\rx` at the start). -/
theorem c10_amended :
    (∀ st : Tokenizer, st.isNull = true →
      ((parseNewline st).1 = true ↔
        st.token = 10 ∨ (st.token = 13 ∧ st.stream.getD st.cursor 0 = 10))) ∧
    iscontrol 13 = true ∧
    (tomlLoadFileModel "a = 1\n#\rx\n").isNone = true ∧
    (tomlLoadFileModel "k = \"a\rb\"\n").isNone = true := by
  refine ⟨?_, by decide, by decide, by decide⟩
  intro st h
  unfold parseNewline isNewline isReturn
  by_cases h10 : st.token = 10
  · simp [h10]
  · rw [if_neg (by simpa using h10)]
    by_cases h13 : st.token = 13
    · rw [if_pos (by simpa using h13)]
      unfold Tokenizer.next
      rw [h]
      by_cases hm : st.stream[st.cursor]?.getD 0 = -1
      · simp [h10, h13, hm]
      · by_cases hnl : st.stream[st.cursor]?.getD 0 = 10
        · simp [h13, hm, hnl]
        · simp [h10, h13, hm, hnl]
    · rw [if_neg (by simpa using h13)]
      simp [h10, h13]

/-- C10 witness: the amended characterization applied to a tokenizer
reading `\r\n`. -/
theorem c10_witness : (parseNewline (tokOn "\r\n")).1 = true :=
  (c10_amended.1 (tokOn "\r\n") rfl).mpr (Or.inr (by decide))

end Mytoml2Proof
